import Mathlib

/-!
Shallow embedding of the sterna/ledSegment LED animation engine
(src/ledSegment.c, src/advancedAnimations.c, src/apa102.c together with
their headers) and a verification of its natural-language specification.

Modelling conventions:
* C machine integers are modelled as `Nat` (with explicit wraparound where the
  C code relies on unsigned conversion, and `Int` where signed arithmetic
  matters).
* C undefined behaviour that the embedded code can actually reach (division by
  zero, out-of-bounds array access) is modelled by `Option`-valued operations
  returning `none`.
* The repository's `utils.c` is not part of the sources; the handful of small
  helpers it provides (`utilIncWithDir`, `utilLoopValue`, `utilBounceValue`,
  `utilValueWillOverflow`, `utilScale`) are modelled from the specification
  text, and each such definition is marked `Modelled from the spec:`.
* Randomness (`utilRandRange`) is modelled by an oracle stream of numbers
  threaded through the engine state.
-/

namespace LedSeg

/-- LEDSEG_MAX_SEGMENTS from ledSegment.h: capacity of the segment table (and
of the static segSyncRelease array in ledSegment.c). -/
def LEDSEG_MAX_SEGMENTS : Nat := 30

/-- LEDSEG_ALL from ledSegment.h: sentinel id addressing all non-excluded
segments. -/
def LEDSEG_ALL : Nat := 255

/-- LEDSEG_UPDATE_PERIOD_TIME from ledSegment.h: ms between full strip
updates. -/
def LEDSEG_UPDATE_PERIOD_TIME : Nat := 20

/-- largestError from ledSegSetFade (ledSegment.c line 213): the tolerated
per-channel quantization remainder. -/
def largestError : Nat := 50

/-- UINT32_MAX, used by ledSegSetFade's cycle-count overflow guard. -/
def UINT32_MAX : Nat := 4294967295

/-- ledSegmentMode_t from ledSegment.h. -/
inductive Mode where
  | loop
  | loopEnd
  | bounce
  | timedPulse
  | glitterLoop
  | glitterLoopEnd
  | glitterLoopPersist
  | glitterBounce
deriving Repr, DecidableEq

/-- isGlitterMode (ledSegment.c lines 1818-1828): a mode between
LEDSEG_MODE_GLITTER_LOOP and LEDSEG_MODE_GLITTER_BOUNCE in declaration
order. -/
def isGlitterMode (m : Mode) : Bool :=
  match m with
  | Mode.glitterLoop => true
  | Mode.glitterLoopEnd => true
  | Mode.glitterLoopPersist => true
  | Mode.glitterBounce => true
  | _ => false

/-- ledSegmentFadeState_t from ledSegment.h. -/
inductive FadeDoneState where
  | notDone
  | done
  | waitingForSync
  | syncDone
deriving Repr, DecidableEq

/-- RGB_t (defined in the missing utils.h, used throughout
advancedAnimations.c): a plain colour triple. -/
structure RGB where
  r : Nat
  g : Nat
  b : Nat
deriving Repr, DecidableEq

/-- ledSegmentFadeSetting_t from ledSegment.h. -/
structure FadeSetting where
  mode : Mode
  r_min : Nat
  g_min : Nat
  b_min : Nat
  r_max : Nat
  g_max : Nat
  b_max : Nat
  fadeTime : Nat
  fadePeriodMultiplier : Nat
  startDir : Int
  cycles : Nat
  globalSetting : Nat
  syncGroup : Nat
deriving Repr, DecidableEq

/-- ledSegmentPulseSetting_t from ledSegment.h. The colourSeqPtr pointer is
modelled as the pointed-to colour list itself; `none` models a NULL pointer. -/
structure PulseSetting where
  mode : Mode
  r_max : Nat
  g_max : Nat
  b_max : Nat
  ledsMaxPower : Nat
  ledsFadeBefore : Nat
  ledsFadeAfter : Nat
  startLed : Nat
  startDir : Int
  pixelsPerIteration : Nat
  pixelTime : Nat
  cycles : Nat
  globalSetting : Nat
  colourSeqNum : Nat
  colourSeqLoops : Nat
  colourSeqPtr : Option (List RGB)
deriving Repr, DecidableEq

/-- ledSegmentState_t from ledSegment.h. The glitterActiveLeds ring buffer
(calloc'd uint16_t array) is modelled as a list of led numbers. -/
structure SegState where
  r : Nat
  g : Nat
  b : Nat
  r_rate : Nat
  g_rate : Nat
  b_rate : Nat
  fadeDir : Int
  cyclesToFadeChange : Nat
  fadeActive : Bool
  fadeState : FadeDoneState
  confFade : FadeSetting
  fadeCycle : Nat
  switchMode : Bool
  savedR : Nat
  savedG : Nat
  savedB : Nat
  savedDir : Int
  savedCycles : Nat
  pulseDir : Int
  currentLed : Nat
  cyclesToPulseMove : Nat
  pulseCycle : Nat
  pulseActive : Bool
  pulseDone : Bool
  confPulse : PulseSetting
  pulseUpdatedCycle : Bool
  glitterR : Nat
  glitterG : Nat
  glitterB : Nat
  glitterActiveLeds : List Nat
deriving Repr, DecidableEq

/-- ledSegment_t from ledSegment.h. -/
structure Segment where
  strip : Nat
  start : Nat
  stop : Nat
  invertPulse : Bool
  excludeFromAll : Bool
  state : SegState
deriving Repr, DecidableEq

/-- Absolute difference of two channel extremes, matching the C idiom
`abs(fs->r_max - fs->r_min)` on promoted uint8_t operands. -/
def absDiff (a b : Nat) : Nat := max a b - min a b

/-- Modelled from the spec: `utilIncWithDir` lives in the repository's missing
utils.c. Section 4.1 ("advance each channel by its derived rate toward the
configured extreme") together with its use sites dictates: move `value` by
`rate` in direction `dir` (+1 up, otherwise down), saturating at the bounds
`low`/`high`. -/
def utilIncWithDir (value : Nat) (dir : Int) (rate low high : Nat) : Nat :=
  if dir = 1 then min (value + rate) high
  else max low (value - rate)

/-- Modelled from the spec: `utilLoopValue` lives in the missing utils.c.
Section 4.1 ("loop wraps modulo the segment range"): add `inc` to `value` and
wrap into the inclusive range [rangeStart, rangeStop]. -/
def utilLoopValue (value : Nat) (inc : Int) (rangeStart rangeStop : Nat) : Nat :=
  let len : Int := (rangeStop : Int) - (rangeStart : Int) + 1
  let pos : Int := (value : Int) + inc
  if pos > (rangeStop : Int) then (pos - len).toNat
  else if pos < (rangeStart : Int) then (pos + len).toNat
  else pos.toNat

/-- Modelled from the spec: `utilBounceValue` lives in the missing utils.c.
Section 4.1 ("bounce reflects at either boundary and treats each reflection
as one elapsed cycle"): add `inc` to `value`, reflect at the range edges, and
report the direction of travel after the move (-1 after reflecting at the
top, +1 after reflecting at the bottom, the sign of `inc` otherwise). -/
def utilBounceValue (value : Nat) (inc : Int) (rangeStart rangeStop : Nat) : Nat × Int :=
  let pos : Int := (value : Int) + inc
  if pos > (rangeStop : Int) then
    (((rangeStop : Int) - (pos - (rangeStop : Int))).toNat, -1)
  else if pos < (rangeStart : Int) then
    (((rangeStart : Int) + ((rangeStart : Int) - pos)).toNat, 1)
  else (pos.toNat, if inc < 0 then -1 else 1)

/-- Modelled from the spec: `utilValueWillOverflow` lives in the missing
utils.c. Per its use in pulseCalcAndSet ("the anchor is about to leave the
segment"): true when `value + inc` falls outside [rangeStart, rangeStop]. -/
def utilValueWillOverflow (value : Nat) (inc : Int) (rangeStart rangeStop : Nat) : Bool :=
  let pos : Int := (value : Int) + inc
  decide (pos > (rangeStop : Int)) || decide (pos < (rangeStart : Int))

/-- Modelled from the spec: `utilScale` lives in the missing utils.c. Section
2's power normalization ("rescales an RGB triple so the sum of channel values
equals a target") dictates `value * target / total` (Nat division; the C
original would divide by zero for total = 0). -/
def utilScale (value total target : Nat) : Nat :=
  value * target / total

/-- checkCycleCounter (ledSegment.c lines 1475-1490): given the current
counter value, return (counter finished, new counter value). A counter at 0
never fires; a counter at 1 fires and is left at 1 (the C code returns before
writing the decrement back); otherwise the counter is decremented. -/
def checkCycleCounter (cycle : Nat) : Bool × Nat :=
  if cycle = 0 then (false, cycle)
  else if cycle = 1 then (true, cycle)
  else (false, cycle - 1)

/-- checkCycleCounterU16 (ledSegment.c lines 1495-1510): identical logic to
checkCycleCounter on a uint16_t counter. -/
def checkCycleCounterU16 (cycle : Nat) : Bool × Nat :=
  checkCycleCounter cycle

/-- The per-channel "makeItSlower" trigger inside ledSegSetFade's
rate-derivation loop (ledSegment.c lines 223, 228, 233): a channel whose
extremes differ demands a per-step rate of at least 1 and a quantization
remainder of at most largestError. -/
def slowChan (diff rate master_steps : Nat) : Prop :=
  diff ≠ 0 ∧ (rate < 1 ∨ largestError < diff % master_steps)

instance (d r m : Nat) : Decidable (slowChan d r m) := by
  unfold slowChan
  infer_instance

/-- The rate-derivation do-while loop of ledSegSetFade (ledSegment.c lines
209-242), searching upward from `periodMultiplier` for an acceptable period
multiplier. Returns the multiplier and the three channel rates of the final
pass. The C loop has no bound; `fuel` bounds the recursion and is proved
sufficient below for every fadeTime of at least one update period. `none`
models either exhausted fuel or a pass with master_steps = 0, where the C
code divides by zero. -/
def fadeRateLoop (fs : FadeSetting) : Nat → Nat → Option (Nat × Nat × Nat × Nat)
  | 0, _ => none
  | fuel + 1, periodMultiplier =>
    let master_steps := fs.fadeTime / (LEDSEG_UPDATE_PERIOD_TIME * periodMultiplier)
    if master_steps = 0 then none
    else
      let r_diff := absDiff fs.r_max fs.r_min
      let g_diff := absDiff fs.g_max fs.g_min
      let b_diff := absDiff fs.b_max fs.b_min
      let r_rate := r_diff / master_steps
      let g_rate := g_diff / master_steps
      let b_rate := b_diff / master_steps
      if slowChan r_diff r_rate master_steps ∨ slowChan g_diff g_rate master_steps ∨
          slowChan b_diff b_rate master_steps then
        fadeRateLoop fs fuel (periodMultiplier + 1)
      else
        some (periodMultiplier, r_rate, g_rate, b_rate)

/-- The complete rate derivation of ledSegSetFade, started (as in the source)
at periodMultiplier = 1. The fuel fadeTime/period + 1 is sufficient: the loop
always accepts a multiplier whose step count has reached 1. -/
def fadeDeriveRes (fs : FadeSetting) : Option (Nat × Nat × Nat × Nat) :=
  fadeRateLoop fs (fs.fadeTime / LEDSEG_UPDATE_PERIOD_TIME + 1) 1

/-- The specification's acceptance predicate for a period multiplier m, taken
verbatim from the spec (section 4.1): with steps = duration / (tickPeriod * m),
every channel whose min and max differ gets an integer per-step increment of
at least 1 and a quantization remainder of at most the fixed tolerance. -/
def specGoodMultiplier (fs : FadeSetting) (m : Nat) : Prop :=
  let steps := fs.fadeTime / (LEDSEG_UPDATE_PERIOD_TIME * m)
  (absDiff fs.r_max fs.r_min ≠ 0 →
    1 ≤ absDiff fs.r_max fs.r_min / steps ∧
      absDiff fs.r_max fs.r_min % steps ≤ largestError) ∧
  (absDiff fs.g_max fs.g_min ≠ 0 →
    1 ≤ absDiff fs.g_max fs.g_min / steps ∧
      absDiff fs.g_max fs.g_min % steps ≤ largestError) ∧
  (absDiff fs.b_max fs.b_min ≠ 0 →
    1 ≤ absDiff fs.b_max fs.b_min / steps ∧
      absDiff fs.b_max fs.b_min % steps ≤ largestError)

instance (fs : FadeSetting) (m : Nat) : Decidable (specGoodMultiplier fs m) := by
  unfold specGoodMultiplier
  infer_instance

/-- The single-segment body of ledSegSetFade (ledSegment.c lines 199-277):
copy the setting, derive the period multiplier and channel rates, initialize
the current colour from the starting direction, normalize very large cycle
counts to "infinite" (0), and arm the fade. `none` models the division by
zero the C code performs when the derivation's master_steps is 0. -/
def ledSegSetFadeSingle (sg : Segment) (fs : FadeSetting) : Option Segment :=
  match fadeDeriveRes fs with
  | none => none
  | some (periodMultiplier, r_rate, g_rate, b_rate) =>
    let master_steps := fs.fadeTime / (LEDSEG_UPDATE_PERIOD_TIME * periodMultiplier)
    let startR := if fs.startDir = -1 then fs.r_max else fs.r_min
    let startG := if fs.startDir = -1 then fs.g_max else fs.g_min
    let startB := if fs.startDir = -1 then fs.b_max else fs.b_min
    let newCycles :=
      if fs.cycles = 0 ∨ UINT32_MAX / fs.cycles < master_steps then 0 else fs.cycles
    some { sg with state := { sg.state with
      confFade := { fs with fadePeriodMultiplier := periodMultiplier, cycles := newCycles }
      r_rate := r_rate
      g_rate := g_rate
      b_rate := b_rate
      cyclesToFadeChange := periodMultiplier
      r := startR
      g := startG
      b := startB
      fadeDir := fs.startDir
      fadeCycle := newCycles
      fadeActive := true
      fadeState := FadeDoneState.notDone } }

/-- ledSegExists (ledSegment.c lines 155-162) over the modelled segment
table: a real index below the registration count, or LEDSEG_ALL. -/
def ledSegExists (tbl : List Segment) (seg : Nat) : Bool :=
  decide (seg < tbl.length) || decide (seg = LEDSEG_ALL)

/-- ledSegExistsNotAll (ledSegment.c lines 167-174). -/
def ledSegExistsNotAll (tbl : List Segment) (seg : Nat) : Bool :=
  decide (seg < tbl.length)

/-- isExcludedFromAll (ledSegment.c lines 1850-1857): nonexistent segments
count as excluded. -/
def isExcludedFromAll (tbl : List Segment) (seg : Nat) : Bool :=
  match tbl.get? seg with
  | none => true
  | some sg => sg.excludeFromAll

/-- The LEDSEG_ALL loop of ledSegSetFade (ledSegment.c lines 188-198),
applying the single-segment body to every non-excluded segment in index
order. -/
def ledSegSetFadeAll (fs : FadeSetting) : List Segment → Option (List Segment)
  | [] => some []
  | sg :: rest =>
    let hd := if sg.excludeFromAll then some sg else ledSegSetFadeSingle sg fs
    match hd, ledSegSetFadeAll fs rest with
    | some sg', some rest' => some (sg' :: rest')
    | _, _ => none

/-- ledSegSetFade (ledSegment.c lines 182-278) as a table operation: returns
the C function's boolean result together with the updated table. The NULL
setting-pointer guard is not modelled (settings are passed by value). -/
def ledSegSetFade (tbl : List Segment) (seg : Nat) (fs : FadeSetting) :
    Option (Bool × List Segment) :=
  if ¬ (ledSegExists tbl seg = true) then some (false, tbl)
  else if seg = LEDSEG_ALL then
    (ledSegSetFadeAll fs tbl).map (fun t => (true, t))
  else
    match tbl.get? seg with
    | none => some (false, tbl)
    | some sg => (ledSegSetFadeSingle sg fs).map (fun sg' => (true, tbl.set seg sg'))

/-- Conversion of a C int expression back into a uint16_t lvalue (reduction
modulo 65536 of the signed value). -/
def toU16 (x : Int) : Nat := (x % 65536).toNat

/-- The single-segment body of ledSegSetPulse (ledSegment.c lines 301-364).
In glitter modes a fresh zeroed ring buffer of ledsMaxPower +
pixelsPerIteration slots replaces the old one and the stored pixelTime is
rescaled to update periods per glitter subset; `none` models the division by
zero the C code performs there when ledsMaxPower = 0. In other modes the
start led is translated to an absolute strip index (inverting it on inverted
segments) and clamped into the segment. -/
def ledSegSetPulseSingle (sg : Segment) (ps : PulseSetting) : Option Segment :=
  let st0 := { sg.state with confPulse := ps, pulseCycle := ps.cycles, pulseActive := true }
  if isGlitterMode ps.mode then
    if ps.ledsMaxPower = 0 then none
    else
      let pixelTimeTemp0 := ps.pixelTime / LEDSEG_UPDATE_PERIOD_TIME
      let pixelTimeTemp1 := pixelTimeTemp0 * ps.pixelsPerIteration / ps.ledsMaxPower
      let pixelTimeTemp := if pixelTimeTemp1 = 0 then 1 else pixelTimeTemp1
      some { sg with state := { st0 with
        glitterActiveLeds := List.replicate (ps.ledsMaxPower + ps.pixelsPerIteration) 0
        currentLed := 0
        confPulse := { ps with pixelTime := pixelTimeTemp }
        cyclesToPulseMove := 1
        pulseDir := ps.startDir
        pulseDone := false } }
  else
    let rawStart :=
      if sg.invertPulse then toU16 ((sg.stop : Int) - (ps.startLed : Int) + 1)
      else toU16 ((sg.start : Int) + (ps.startLed : Int) - 1)
    let newDir := if sg.invertPulse then ps.startDir * (-1) else ps.startDir
    let clampedStart :=
      if rawStart > sg.stop then sg.stop
      else if rawStart < sg.start then sg.start
      else rawStart
    some { sg with state := { st0 with
      confPulse := { ps with startLed := clampedStart, startDir := newDir }
      currentLed := clampedStart
      cyclesToPulseMove := ps.pixelTime
      pulseDir := newDir
      pulseDone := false } }

/-- The LEDSEG_ALL loop of ledSegSetPulse (ledSegment.c lines 290-300). -/
def ledSegSetPulseAll (ps : PulseSetting) : List Segment → Option (List Segment)
  | [] => some []
  | sg :: rest =>
    let hd := if sg.excludeFromAll then some sg else ledSegSetPulseSingle sg ps
    match hd, ledSegSetPulseAll ps rest with
    | some sg', some rest' => some (sg' :: rest')
    | _, _ => none

/-- ledSegSetPulse (ledSegment.c lines 284-365) as a table operation. -/
def ledSegSetPulse (tbl : List Segment) (seg : Nat) (ps : PulseSetting) :
    Option (Bool × List Segment) :=
  if ¬ (ledSegExists tbl seg = true) then some (false, tbl)
  else if seg = LEDSEG_ALL then
    (ledSegSetPulseAll ps tbl).map (fun t => (true, t))
  else
    match tbl.get? seg with
    | none => some (false, tbl)
    | some sg => (ledSegSetPulseSingle sg ps).map (fun sg' => (true, tbl.set seg sg'))

/-- The single-segment body of ledSegSetFadeMode (ledSegment.c line 449). -/
def ledSegSetFadeModeSingle (sg : Segment) (m : Mode) : Segment :=
  { sg with state := { sg.state with confFade := { sg.state.confFade with mode := m } } }

/-- ledSegSetFadeMode (ledSegment.c lines 432-451) as a table operation. -/
def ledSegSetFadeMode (tbl : List Segment) (seg : Nat) (m : Mode) :
    Bool × List Segment :=
  if ¬ (ledSegExists tbl seg = true) then (false, tbl)
  else if seg = LEDSEG_ALL then
    (true, tbl.map (fun sg => if sg.excludeFromAll then sg else ledSegSetFadeModeSingle sg m))
  else
    match tbl.get? seg with
    | none => (false, tbl)
    | some sg => (true, tbl.set seg (ledSegSetFadeModeSingle sg m))

/-- The single-segment body of ledSegRestart (ledSegment.c lines 792-826):
re-arm the fade from its configured start extreme and/or the pulse from its
configured start led without re-deriving anything. -/
def ledSegRestartSingle (sg : Segment) (restartFade restartPulse : Bool) : Segment :=
  let st1 :=
    if restartFade then
      if sg.state.confFade.startDir = 1 then
        { sg.state with
          r := sg.state.confFade.r_min
          g := sg.state.confFade.g_min
          b := sg.state.confFade.b_min
          fadeDir := 1
          fadeState := FadeDoneState.notDone
          fadeCycle := sg.state.confFade.cycles
          fadeActive := true }
      else
        { sg.state with
          r := sg.state.confFade.r_max
          g := sg.state.confFade.g_max
          b := sg.state.confFade.b_max
          fadeDir := -1
          fadeState := FadeDoneState.notDone
          fadeCycle := sg.state.confFade.cycles
          fadeActive := true }
    else sg.state
  let st2 :=
    if restartPulse then
      { st1 with
        pulseDir := st1.confPulse.startDir
        currentLed := st1.confPulse.startLed
        pulseCycle := st1.confPulse.cycles
        pulseActive := true
        pulseDone := false }
    else st1
  { sg with state := st2 }

/-- ledSegRestart (ledSegment.c lines 775-827) as a table operation. -/
def ledSegRestart (tbl : List Segment) (seg : Nat) (restartFade restartPulse : Bool) :
    Bool × List Segment :=
  if ¬ (ledSegExists tbl seg = true) then (false, tbl)
  else if seg = LEDSEG_ALL then
    (true, tbl.map (fun sg =>
      if sg.excludeFromAll then sg else ledSegRestartSingle sg restartFade restartPulse))
  else
    match tbl.get? seg with
    | none => (false, tbl)
    | some sg => (true, tbl.set seg (ledSegRestartSingle sg restartFade restartPulse))

/-- colour_t (from the missing utils.h): channel selector used by
pulseCalcColourPerLed. -/
inductive Colour where
  | red
  | green
  | blue
deriving Repr, DecidableEq

/-- animNormalizeColours (advancedAnimations.c lines 141-149): rescale a
colour so the channel sum becomes normalVal. -/
def animNormalizeColours (cols : RGB) (normalVal : Nat) : RGB :=
  let totalLight := cols.r + cols.g + cols.b
  { r := utilScale cols.r totalLight normalVal
    g := utilScale cols.g totalLight normalVal
    b := utilScale cols.b totalLight normalVal }

/-- animGetColourFromSequence (advancedAnimations.c lines 119-134): copy entry
`num` out of the colour list (a NULL list yields black), call the normalizer
when `normalize` is nonzero, and return the unnormalized copy (the source
discards the normalizer's return value). The source performs no bounds check
on `num`; the out-of-range read is modelled as the zero colour. -/
def animGetColourFromSequence (colourList : Option (List RGB)) (num normalize : Nat) : RGB :=
  match colourList with
  | none => { r := 0, g := 0, b := 0 }
  | some l =>
    let entry := l.getD num { r := 0, g := 0, b := 0 }
    let tmp : RGB := { r := entry.r, g := entry.g, b := entry.b }
    let _discardedNormalized :=
      if normalize ≠ 0 then animNormalizeColours tmp normalize else tmp
    tmp

/-- Conversion of a C int expression into an int16_t value (wrap into
[-32768, 32767]), used for pulseCalcAndSet's tmpLedNum. -/
def toI16 (x : Int) : Int := (x + 32768) % 65536 - 32768

/-- Conversion of a C int expression back into a uint8_t lvalue. -/
def toU8 (x : Int) : Nat := (x % 256).toNat

/-- pulseCalcColourPerLed (ledSegment.c lines 1002-1083): the colour of pulse
member `led` (1-indexed from the trailing edge) for one channel, ramping from
the segment's current fade colour up to the pulse's max colour (or a
position-indexed palette colour when a colour sequence is configured). The
ramp arithmetic is C int arithmetic truncated back into a uint8_t. The
divisions by ledsFadeBefore/ledsFadeAfter are unreachable with a zero divisor
(the corresponding part is empty then), and Lean's total division models
them. -/
def pulseCalcColourPerLed (st : SegState) (led : Nat) (col : Colour) : Nat :=
  let ps := st.confPulse
  let RGBMaxTmp : RGB :=
    if ps.colourSeqNum ≠ 0 then
      let tmp := if ps.colourSeqLoops ≠ 0 then ps.colourSeqLoops else 1
      let ledsPerColour0 :=
        (ps.ledsFadeBefore + ps.ledsMaxPower + ps.ledsFadeAfter) / (tmp * ps.colourSeqNum)
      let ledsPerColour := if ledsPerColour0 < 1 then 1 else ledsPerColour0
      let colIndex := ((led - 1) / ledsPerColour) % ps.colourSeqNum
      animGetColourFromSequence ps.colourSeqPtr colIndex 255
    else { r := ps.r_max, g := ps.g_max, b := ps.b_max }
  let tmpMax : Nat :=
    match col with
    | Colour.red => RGBMaxTmp.r
    | Colour.green => RGBMaxTmp.g
    | Colour.blue => RGBMaxTmp.b
  let tmpMin : Nat :=
    match col with
    | Colour.red => st.r
    | Colour.green => st.g
    | Colour.blue => st.b
  if led ≤ ps.ledsFadeBefore then
    toU8 ((tmpMin : Int) +
      Int.tdiv ((led : Int) * ((tmpMax : Int) - (tmpMin : Int))) (ps.ledsFadeBefore : Int))
  else if led ≤ ps.ledsFadeBefore + ps.ledsMaxPower then
    tmpMax
  else
    toU8 ((tmpMax : Int) -
      Int.tdiv (((led : Int) - (ps.ledsFadeBefore : Int) - (ps.ledsMaxPower : Int) - 1) *
        ((tmpMax : Int) - (tmpMin : Int))) (ps.ledsFadeAfter : Int))

/-- One pixel write issued to the apa102 layer. -/
structure PixelWrite where
  strip : Nat
  pixel : Nat
  r : Nat
  g : Nat
  b : Nat
  global : Nat
deriving Repr, DecidableEq

/-- ledSegSetLedWithGlobal (ledSegment.c lines 495-512) for one existing
segment: translate the 1-indexed segment-relative led to an absolute strip
pixel (inverting on inverted segments) and emit the write; out-of-segment
leds emit nothing (the C function returns false). -/
def ledSegSetLedOnSeg (sg : Segment) (led r g b global : Nat) : Option PixelWrite :=
  if led = 0 ∨ led > sg.stop - sg.start + 1 then none
  else
    let tmp :=
      if sg.invertPulse then toU16 ((sg.stop : Int) - (led : Int) + 1)
      else toU16 ((sg.start : Int) + (led : Int) - 1)
    some { strip := sg.strip, pixel := tmp, r := r, g := g, b := b, global := global }

/-- The state a pulse movement/paint step threads along: the segment's state,
the random oracle, and the pixel writes issued so far. -/
structure PulseCtx where
  st : SegState
  rng : List Nat
  writes : List PixelWrite
deriving Repr, DecidableEq

/-- Modelled from the spec: `utilRandRange n` (missing utils.c) returns a
pseudo-random number in [0, n]. The oracle stream supplies the draws; the
drawn value is reduced into range, and an exhausted stream draws 0. -/
def utilRandRange (rng : List Nat) (n : Nat) : Nat × List Nat :=
  match rng with
  | [] => (0, [])
  | x :: rest => (x % (n + 1), rest)

/-- The glitter generation loop of pulseCalcAndSet (ledSegment.c lines
1226-1268): inject pixelsPerIteration fresh random leds (direction +1) or
clear that many ring slots (direction -1), handling ring wraparound per
glitter mode. Returns the updated context. -/
def glitterGenLoop (sg : Segment) (glitterTotal : Nat) :
    Nat → PulseCtx → PulseCtx
  | 0, ctx => ctx
  | n + 1, ctx =>
    let st := ctx.st
    let ps := st.confPulse
    let (newLed, rng') :=
      if st.pulseDir = -1 then (0, ctx.rng)
      else
        let (v, r') := utilRandRange ctx.rng (sg.stop - sg.start)
        (v + 1, r')
    let buf1 := st.glitterActiveLeds.set st.currentLed newLed
    let cur1 := if st.pulseDir = -1 ∧ st.currentLed = 0 then 1 else st.currentLed
    let cur2 := toU16 ((cur1 : Int) + st.pulseDir)
    if cur2 ≥ glitterTotal then
      if ps.mode = Mode.glitterLoopPersist then
        glitterGenLoop sg glitterTotal n
          { ctx with
            st := { st with
              glitterActiveLeds := buf1
              currentLed := 0
              pulseUpdatedCycle := true }
            rng := rng' }
      else if ps.mode = Mode.glitterBounce then
        { ctx with
          st := { st with
            glitterActiveLeds := buf1
            currentLed := glitterTotal - 1
            pulseUpdatedCycle := true
            pulseDir := -1 }
          rng := rng' }
      else
        { ctx with
          st := { st with
            glitterActiveLeds := buf1
            currentLed := glitterTotal
            pulseUpdatedCycle := true }
          rng := rng' }
    else if cur2 = 0 ∧ ps.mode = Mode.glitterBounce then
      glitterGenLoop sg glitterTotal n
        { ctx with
          st := { st with
            glitterActiveLeds := buf1
            currentLed := cur2
            pulseUpdatedCycle := true
            pulseDir := 1 }
          rng := rng' }
    else
      glitterGenLoop sg glitterTotal n
        { ctx with
          st := { st with
            glitterActiveLeds := buf1
            currentLed := cur2 }
          rng := rng' }

/-- The glitter fade-paint loop of pulseCalcAndSet (ledSegment.c lines
1310-1375): walk the ring backwards over the freshest pixelsPerIteration
slots, stepping the shared glitter colour toward its target and writing each
slot's led. Returns the context and the final ring index. -/
def glitterFadeLoop (sg : Segment) (glitterTotal ledsPerCol : Nat)
    (glitterJustGenerated : Bool) :
    Nat → Nat → PulseCtx → PulseCtx × Nat
  | 0, currentIndex, ctx => (ctx, currentIndex)
  | n + 1, currentIndex, ctx =>
    let st := ctx.st
    let ps := st.confPulse
    let idx1 := if currentIndex > 0 then currentIndex - 1 else glitterTotal - 1
    let ledIndex := st.glitterActiveLeds.getD idx1 0
    let RGBMaxTmp : RGB :=
      if ps.colourSeqNum ≠ 0 then
        let colIndex := ((ledIndex - 1) / ledsPerCol) % ps.colourSeqNum
        animGetColourFromSequence ps.colourSeqPtr colIndex 255
      else { r := ps.r_max, g := ps.g_max, b := ps.b_max }
    let st1 :=
      if glitterJustGenerated then
        if ps.mode = Mode.glitterBounce ∧ st.pulseDir = -1 then
          { st with glitterR := RGBMaxTmp.r, glitterG := RGBMaxTmp.g, glitterB := RGBMaxTmp.b }
        else
          { st with glitterR := 0, glitterG := 0, glitterB := 0 }
      else st
    let st2 := { st1 with
      glitterR := utilIncWithDir st1.glitterR st1.pulseDir (RGBMaxTmp.r / ps.pixelTime) 0 RGBMaxTmp.r
      glitterG := utilIncWithDir st1.glitterG st1.pulseDir (RGBMaxTmp.g / ps.pixelTime) 0 RGBMaxTmp.g
      glitterB := utilIncWithDir st1.glitterB st1.pulseDir (RGBMaxTmp.b / ps.pixelTime) 0 RGBMaxTmp.b }
    let w := ledSegSetLedOnSeg sg ledIndex st2.glitterR st2.glitterG st2.glitterB ps.globalSetting
    let writes' :=
      match w with
      | none => ctx.writes
      | some pw => ctx.writes ++ [pw]
    let colourReached :=
      (st2.pulseDir = 1 ∧ st2.glitterR = RGBMaxTmp.r ∧ st2.glitterG = RGBMaxTmp.g ∧
        st2.glitterB = RGBMaxTmp.b) ∨
      (st2.pulseDir = -1 ∧ st2.glitterR = 0 ∧ st2.glitterG = 0 ∧ st2.glitterB = 0)
    let st3 :=
      if colourReached ∧ st2.pulseUpdatedCycle then
        let stA := { st2 with pulseUpdatedCycle := false }
        if (checkCycleCounter stA.pulseCycle).1 then
          { stA with currentLed := glitterTotal, pulseDone := true }
        else
          { stA with pulseCycle := (checkCycleCounter stA.pulseCycle).2 }
      else st2
    glitterFadeLoop sg glitterTotal ledsPerCol glitterJustGenerated n idx1
      { ctx with st := st3, writes := writes' }

/-- The glitter full-power paint loop of pulseCalcAndSet (ledSegment.c lines
1378-1409): continue backwards over the ledsMaxPower already-lit slots,
holding them at full colour; a slot holding led 0 ends the scan. -/
def glitterHoldLoop (sg : Segment) (glitterTotal ledsPerCol : Nat) :
    Nat → Nat → PulseCtx → PulseCtx
  | 0, _, ctx => ctx
  | n + 1, currentIndex, ctx =>
    let st := ctx.st
    let ps := st.confPulse
    let idx1 := if currentIndex > 0 then currentIndex - 1 else glitterTotal - 1
    let ledIndex := st.glitterActiveLeds.getD idx1 0
    if ledIndex = 0 then ctx
    else
      let RGBMaxTmp : RGB :=
        if ps.colourSeqNum ≠ 0 then
          let colIndex := ((ledIndex - 1) / ledsPerCol) % ps.colourSeqNum
          animGetColourFromSequence ps.colourSeqPtr colIndex 255
        else { r := ps.r_max, g := ps.g_max, b := ps.b_max }
      let w := ledSegSetLedOnSeg sg ledIndex RGBMaxTmp.r RGBMaxTmp.g RGBMaxTmp.b ps.globalSetting
      let writes' :=
        match w with
        | none => ctx.writes
        | some pw => ctx.writes ++ [pw]
      glitterHoldLoop sg glitterTotal ledsPerCol n idx1 { ctx with writes := writes' }

/-- The non-glitter paint loop of pulseCalcAndSet (ledSegment.c lines
1416-1467): for each of the pulseLength member leds, place it behind the
anchor according to the mode, and write it only if it falls inside
[start, stop]. An invalid mode aborts the whole function (fail silently). -/
def pulsePaintLoop (sg : Segment) (pulseLength : Nat) :
    Nat → Nat → PulseCtx → PulseCtx
  | 0, _, ctx => ctx
  | n + 1, i, ctx =>
    let st := ctx.st
    let ps := st.confPulse
    let tmpLedNum : Option Int :=
      if ps.mode = Mode.loopEnd ∨ st.pulseUpdatedCycle then
        some (toI16 ((st.currentLed : Int) + (i : Int) * st.pulseDir * (-1)))
      else if ps.mode = Mode.bounce then
        some ((utilBounceValue st.currentLed ((i : Int) * st.pulseDir * (-1)) sg.start sg.stop).1 : Int)
      else if ps.mode = Mode.loop then
        some ((utilLoopValue st.currentLed ((i : Int) * st.pulseDir * (-1)) sg.start sg.stop : Nat) : Int)
      else none
    match tmpLedNum with
    | none => ctx
    | some led =>
      let writes' :=
        if (sg.start : Int) ≤ led ∧ led ≤ (sg.stop : Int) then
          let tmpR := pulseCalcColourPerLed st (i + 1) Colour.red
          let tmpG := pulseCalcColourPerLed st (i + 1) Colour.green
          let tmpB := pulseCalcColourPerLed st (i + 1) Colour.blue
          ctx.writes ++ [⟨sg.strip, led.toNat, tmpR, tmpG, tmpB, ps.globalSetting⟩]
        else ctx.writes
      pulsePaintLoop sg pulseLength n (i + 1) { ctx with writes := writes' }

/-- The movement phase of pulseCalcAndSet (ledSegment.c lines 1123-1279),
entered when the pulse-move countdown fired and the pulse is not done.
Returns the context and an abort flag (true models the source's "invalid
mode, fail silently" early return, which skips the countdown reload and the
paint phase). -/
def pulseMovePhase (sg : Segment) (pulseLength glitterTotal : Nat) (ctx : PulseCtx) :
    PulseCtx × Bool :=
  let st := ctx.st
  let ps := st.confPulse
  if ps.mode = Mode.loopEnd ∨ st.pulseUpdatedCycle then
    let st1 :=
      if utilValueWillOverflow st.currentLed ((ps.pixelsPerIteration : Int) * st.pulseDir)
          sg.start sg.stop then
        if (checkCycleCounter st.pulseCycle).1 then { st with pulseUpdatedCycle := true }
        else { st with pulseCycle := (checkCycleCounter st.pulseCycle).2 }
      else st
    let cur1 := toU16 ((st1.currentLed : Int) + (ps.pixelsPerIteration : Int) * st1.pulseDir)
    let tmpLed : Int := (cur1 : Int)
    let st2 := { st1 with currentLed := cur1 }
    let st3 :=
      if st2.pulseDir = 1 ∧ tmpLed ≥ (pulseLength : Int) + (sg.stop : Int) then
        if st2.pulseUpdatedCycle then
          { st2 with pulseDone := true, pulseActive := false, pulseUpdatedCycle := false }
        else { st2 with currentLed := sg.start }
      else if st2.pulseDir = -1 ∧ tmpLed ≤ (sg.start : Int) - (pulseLength : Int) then
        if st2.pulseUpdatedCycle then
          { st2 with pulseDone := true, pulseActive := false, pulseUpdatedCycle := false }
        else { st2 with currentLed := sg.stop }
      else st2
    ({ ctx with st := st3 }, false)
  else if ps.mode = Mode.bounce then
    let (newLed, tmpDir) :=
      utilBounceValue st.currentLed ((ps.pixelsPerIteration : Int) * st.pulseDir)
        sg.start sg.stop
    let st1 := { st with currentLed := newLed }
    let st2 :=
      if st1.pulseDir ≠ tmpDir then
        if (checkCycleCounter st1.pulseCycle).1 then { st1 with pulseUpdatedCycle := true }
        else { st1 with pulseCycle := (checkCycleCounter st1.pulseCycle).2, pulseDir := tmpDir }
      else st1
    ({ ctx with st := st2 }, false)
  else if ps.mode = Mode.loop then
    let st1 :=
      if utilValueWillOverflow st.currentLed ((ps.pixelsPerIteration : Int) * st.pulseDir)
          sg.start sg.stop then
        if (checkCycleCounter st.pulseCycle).1 then { st with pulseUpdatedCycle := true }
        else { st with pulseCycle := (checkCycleCounter st.pulseCycle).2 }
      else st
    let loopedLed :=
      utilLoopValue st1.currentLed ((ps.pixelsPerIteration : Int) * st1.pulseDir)
        sg.start sg.stop
    let st2 :=
      if ¬ st1.pulseUpdatedCycle then { st1 with currentLed := loopedLed }
      else st1
    ({ ctx with st := st2 }, false)
  else if isGlitterMode ps.mode then
    let clearWrites :=
      if ¬ st.fadeActive then
        (st.glitterActiveLeds.take glitterTotal).foldl (fun acc led =>
          match ledSegSetLedOnSeg sg led 0 0 0 ps.globalSetting with
          | none => acc
          | some pw => acc ++ [pw]) ctx.writes
      else ctx.writes
    let st1 :=
      if st.currentLed ≥ glitterTotal ∧ ps.mode = Mode.glitterLoop then
        { st with glitterActiveLeds := List.replicate glitterTotal 0, currentLed := 0 }
      else st
    if st1.currentLed < glitterTotal then
      let ctx1 := glitterGenLoop sg glitterTotal ps.pixelsPerIteration
        { ctx with st := st1, writes := clearWrites }
      (ctx1, false)
    else
      ({ ctx with st := st1, writes := clearWrites }, false)
  else
    (ctx, true)

/-- Whether the movement phase just injected fresh glitter leds this tick
(the glitterJustGenerated local of pulseCalcAndSet): true exactly when a
glitter-mode move ran its generation loop. -/
def glitterGenerated (stBefore : SegState) (glitterTotal : Nat) : Bool :=
  let afterRestart :=
    if stBefore.currentLed ≥ glitterTotal ∧ stBefore.confPulse.mode = Mode.glitterLoop then 0
    else stBefore.currentLed
  decide (afterRestart < glitterTotal)

/-- pulseCalcAndSet (ledSegment.c lines 1088-1470) for one existing segment:
when the move countdown fires (and the pulse is not done) advance the pulse
per its mode, then paint the pulse (glitter ring or contiguous window) into
the strip. The segment-existence guard at its top is discharged by the
engine loop, which only passes live segments. -/
def pulseCalcAndSet (sg : Segment) (rng : List Nat) : PulseCtx :=
  let st := sg.state
  let ps := st.confPulse
  let pulseLength := ps.ledsFadeAfter + ps.ledsFadeBefore + ps.ledsMaxPower
  let glitterTotal := ps.ledsMaxPower + ps.pixelsPerIteration
  let (fire, cd') := checkCycleCounterU16 st.cyclesToPulseMove
  let ctx0 : PulseCtx := { st := { st with cyclesToPulseMove := cd' }, rng := rng, writes := [] }
  let moved : PulseCtx × Bool × Bool :=
    if fire ∧ ¬ st.pulseDone then
      let (ctx1, aborted) := pulseMovePhase sg pulseLength glitterTotal ctx0
      if aborted then (ctx1, true, false)
      else
        (({ ctx1 with st := { ctx1.st with cyclesToPulseMove := ctx1.st.confPulse.pixelTime } }),
          false, glitterGenerated ctx0.st glitterTotal)
    else (ctx0, false, false)
  let ctx2 := moved.1
  if moved.2.1 then ctx2
  else
    let st2 := ctx2.st
    let ps2 := st2.confPulse
    if isGlitterMode ps2.mode then
      let currentIndex0 :=
        if (ps2.mode = Mode.glitterLoop ∨ ps2.mode = Mode.glitterLoopEnd) ∧
            st2.currentLed = glitterTotal then
          st2.currentLed - 1
        else st2.currentLed
      let ledsPerCol :=
        if ps2.colourSeqNum ≠ 0 then
          let tmp := if ps2.colourSeqLoops ≠ 0 then ps2.colourSeqLoops else 1
          (sg.stop - sg.start) / (ps2.colourSeqNum * tmp)
        else 0
      let (ctx3, idxAfterFade) :=
        if currentIndex0 < glitterTotal then
          glitterFadeLoop sg glitterTotal ledsPerCol moved.2.2 ps2.pixelsPerIteration
            currentIndex0 ctx2
        else (ctx2, currentIndex0)
      glitterHoldLoop sg glitterTotal ledsPerCol ps2.ledsMaxPower idxAfterFade ctx3
    else
      if st2.pulseActive then pulsePaintLoop sg pulseLength pulseLength 0 ctx2
      else ctx2

/-- checkSyncReadyFade (ledSegment.c lines 1749-1774): all fades of the sync
group are waiting for sync, and `seg` is the lowest-indexed member (group 0
is trivially ready). -/
def checkSyncReadyFade (tbl : List Segment) (syncGrp seg : Nat) : Bool :=
  if syncGrp = 0 then true
  else
    let allState := tbl.all (fun sg =>
      decide (sg.state.confFade.syncGroup ≠ syncGrp) ||
        decide (sg.state.fadeState = FadeDoneState.waitingForSync))
    let firstFound :=
      (tbl.findIdx? (fun sg => decide (sg.state.confFade.syncGroup = syncGrp))).getD 255
    allState && decide (firstFound = seg)

/-- checkFadeNotWaitingForSyncAll (ledSegment.c lines 1780-1797): no fade of
the sync group is still in WAITING_FOR_SYNC. -/
def checkFadeNotWaitingForSyncAll (tbl : List Segment) (syncGrp : Nat) : Bool :=
  if syncGrp = 0 then true
  else
    tbl.all (fun sg =>
      decide (sg.state.confFade.syncGroup ≠ syncGrp) ||
        decide (sg.state.fadeState ≠ FadeDoneState.waitingForSync))

/-- fadeCalcColour (ledSegment.c lines 1516-1742): advance each channel of
segment `seg` one step toward its configured extreme; when all three channels
sit at an extreme, run the sync-group gate and, once released, either consume
a half-cycle (bouncing or snapping per mode), finish a pending mode-change
switch by re-applying the restored setting, or mark the fade done. Takes and
returns the whole table plus the segSyncRelease array; `none` models the
division by zero reachable through the embedded ledSegSetFade call. -/
def fadeCalcColour (tbl : List Segment) (rel : List Bool) (seg : Nat) :
    Option (List Segment × List Bool) :=
  match tbl.get? seg with
  | none => some (tbl, rel)
  | some sg =>
    let st := sg.state
    let conf := st.confFade
    if ¬ st.fadeActive then some (tbl, rel)
    else
      let redReversed := decide (conf.r_min > conf.r_max)
      let greenReversed := decide (conf.g_min > conf.g_max)
      let blueReversed := decide (conf.b_min > conf.b_max)
      let r1 :=
        if redReversed then utilIncWithDir st.r (st.fadeDir * (-1)) st.r_rate conf.r_max conf.r_min
        else utilIncWithDir st.r st.fadeDir st.r_rate conf.r_min conf.r_max
      let g1 :=
        if greenReversed then utilIncWithDir st.g (st.fadeDir * (-1)) st.g_rate conf.g_max conf.g_min
        else utilIncWithDir st.g st.fadeDir st.g_rate conf.g_min conf.g_max
      let b1 :=
        if blueReversed then utilIncWithDir st.b (st.fadeDir * (-1)) st.b_rate conf.b_max conf.b_min
        else utilIncWithDir st.b st.fadeDir st.b_rate conf.b_min conf.b_max
      let bAtMax := (blueReversed && decide (b1 ≤ conf.b_max)) ||
        (!blueReversed && decide (b1 ≥ conf.b_max))
      let bAtMin := !bAtMax && ((blueReversed && decide (b1 ≥ conf.b_min)) ||
        (!blueReversed && decide (b1 ≤ conf.b_min)))
      let gAtMax := (greenReversed && decide (g1 ≤ conf.g_max)) ||
        (!greenReversed && decide (g1 ≥ conf.g_max))
      let gAtMin := !gAtMax && ((greenReversed && decide (g1 ≥ conf.g_min)) ||
        (!greenReversed && decide (g1 ≤ conf.g_min)))
      let rAtMax := (redReversed && decide (r1 ≤ conf.r_max)) ||
        (!redReversed && decide (r1 ≥ conf.r_max))
      let rAtMin := !rAtMax && ((redReversed && decide (r1 ≥ conf.r_min)) ||
        (!redReversed && decide (r1 ≤ conf.r_min)))
      let allReached := (bAtMin || bAtMax) && (gAtMin || gAtMax) && (rAtMin || rAtMax)
      let st1 := { st with r := r1, g := g1, b := b1 }
      if ¬ allReached then some (tbl.set seg { sg with state := st1 }, rel)
      else
        let st2 :=
          if conf.syncGroup ≠ 0 ∧ st1.fadeState = FadeDoneState.notDone then
            { st1 with fadeState := FadeDoneState.waitingForSync }
          else st1
        let tbl2 := tbl.set seg { sg with state := st2 }
        let rel2 :=
          if conf.syncGroup ≠ 0 ∧ checkSyncReadyFade tbl2 conf.syncGroup seg then
            rel.set conf.syncGroup true
          else rel
        if conf.syncGroup = 0 ∨ rel2.getD conf.syncGroup false = true then
          let proceeded : Option (List Segment) :=
            if st2.fadeCycle ≠ 0 ∧ (checkCycleCounter st2.fadeCycle).1 then
              if st2.switchMode then
                let conf1 :=
                  if conf.startDir = 1 then
                    { conf with r_min := st2.savedR, g_min := st2.savedG, b_min := st2.savedB }
                  else
                    { conf with r_max := st2.savedR, g_max := st2.savedG, b_max := st2.savedB }
                let conf2 :=
                  if conf.mode = Mode.loop ∨ conf.mode = Mode.loopEnd then
                    { conf1 with startDir := st2.savedDir }
                  else if conf.mode = Mode.bounce then
                    { conf1 with startDir := st2.fadeDir * (-1) }
                  else conf1
                let conf3 := { conf2 with cycles := st2.savedCycles }
                let sgSwitched :=
                  { sg with state := { st2 with switchMode := false, confFade := conf3 } }
                (ledSegSetFadeSingle sgSwitched conf3).map (fun sg' => tbl2.set seg sg')
              else
                some (tbl2.set seg
                  { sg with state := { st2 with fadeState := FadeDoneState.done } })
            else
              let cyc' := (checkCycleCounter st2.fadeCycle).2
              let st3 :=
                match conf.mode with
                | Mode.bounce => { st2 with fadeDir := st2.fadeDir * (-1) }
                | Mode.loop =>
                  if st2.fadeDir = -1 then
                    { st2 with r := conf.r_max, g := conf.g_max, b := conf.b_max }
                  else if st2.fadeDir = 1 then
                    { st2 with r := conf.r_min, g := conf.g_min, b := conf.b_min }
                  else st2
                | Mode.loopEnd =>
                  if st2.fadeDir = -1 then
                    { st2 with r := conf.r_max, g := conf.g_max, b := conf.b_max }
                  else if st2.fadeDir = 1 then
                    { st2 with r := conf.r_min, g := conf.g_min, b := conf.b_min }
                  else st2
                | _ => st2
              some (tbl2.set seg { sg with state :=
                { st3 with fadeCycle := cyc', fadeState := FadeDoneState.notDone } })
          match proceeded with
          | none => none
          | some tbl3 =>
            let rel3 :=
              if rel2.getD conf.syncGroup false = true ∧
                  checkFadeNotWaitingForSyncAll tbl3 conf.syncGroup then
                rel2.set conf.syncGroup false
              else rel2
            some (tbl3, rel3)
        else some (tbl2, rel2)

/-- One full-range fill issued by the engine for an active fade (the
apa102FillRange call of ledSegRunIteration). -/
structure FillWrite where
  strip : Nat
  start : Nat
  stop : Nat
  r : Nat
  g : Nat
  b : Nat
  global : Nat
deriving Repr, DecidableEq

/-- The whole engine state: the segment table, the static segSyncRelease
array, the random oracle, and the logs of pulse pixel writes and fade range
fills issued so far. -/
structure EngineState where
  segments : List Segment
  segSyncRelease : List Bool
  rng : List Nat
  pulseWrites : List PixelWrite
  fadeFills : List FillWrite
deriving Repr, DecidableEq

/-- The per-segment body of ledSegRunIteration's calculation loop
(ledSegment.c lines 954-982): when the fade is active, count down the fade
throttle and on expiry recompute the fade colour and reload the countdown
from the derived period multiplier, then fill the whole segment; when the
pulse is active, run pulseCalcAndSet on top. -/
def engineSegTick (es : EngineState) (i : Nat) : Option EngineState :=
  match es.segments.get? i with
  | none => some es
  | some sg =>
    let fadeStep : Option EngineState :=
      if sg.state.fadeActive then
        let (fire, cd') := checkCycleCounterU16 sg.state.cyclesToFadeChange
        let afterCalc : Option (List Segment × List Bool) :=
          if fire then
            match fadeCalcColour es.segments es.segSyncRelease i with
            | none => none
            | some (tbl', rel') =>
              match tbl'.get? i with
              | none => some (tbl', rel')
              | some sg' =>
                some (tbl'.set i { sg' with state :=
                  { sg'.state with cyclesToFadeChange := sg'.state.confFade.fadePeriodMultiplier } },
                  rel')
          else
            some (es.segments.set i
              { sg with state := { sg.state with cyclesToFadeChange := cd' } },
              es.segSyncRelease)
        match afterCalc with
        | none => none
        | some (tbl', rel') =>
          match tbl'.get? i with
          | none => some { es with segments := tbl', segSyncRelease := rel' }
          | some sg' =>
            some { es with
              segments := tbl'
              segSyncRelease := rel'
              fadeFills := es.fadeFills ++ [⟨sg'.strip, sg'.start, sg'.stop,
                sg'.state.r, sg'.state.g, sg'.state.b, sg'.state.confFade.globalSetting⟩] }
      else some es
    match fadeStep with
    | none => none
    | some es1 =>
      match es1.segments.get? i with
      | none => some es1
      | some sg1 =>
        if sg1.state.pulseActive then
          let ctx := pulseCalcAndSet sg1 es1.rng
          some { es1 with
            segments := es1.segments.set i { sg1 with state := ctx.st }
            rng := ctx.rng
            pulseWrites := es1.pulseWrites ++ ctx.writes }
        else some es1

/-- Process segments i, i+1, ... for `n` more segments. -/
def engineSegsLoop : Nat → Nat → EngineState → Option EngineState
  | _, 0, es => some es
  | i, n + 1, es =>
    match engineSegTick es i with
    | none => none
    | some es' => engineSegsLoop (i + 1) n es'

/-- One full update period of ledSegRunIteration (ledSegment.c lines
931-992): every registered segment is recomputed once, in index order. The
real function spreads the table over LEDSEG_CALCULATION_CYCLES sub-cycles of
its own time gate and skips work while the DMA is busy; one call of this
model corresponds to one complete LEDSEG_UPDATE_PERIOD_TIME period of the
real scheduler (the rotation still visits each segment exactly once per
period, in ascending order). -/
def enginePeriod (es : EngineState) : Option EngineState :=
  engineSegsLoop 0 es.segments.length es

/-- `n` full update periods of the engine. -/
def engineTicks : Nat → EngineState → Option EngineState
  | 0, es => some es
  | n + 1, es =>
    match enginePeriod es with
    | none => none
    | some es' => engineTicks n es'

/-- APA_NOF_STRIPS from apa102.h. -/
def APA_NOF_STRIPS : Nat := 3

/-- APA_ALL_STRIPS from apa102.h. -/
def APA_ALL_STRIPS : Nat := 255

/-- APA_MAX_NOF_LEDS from apa102.h. -/
def APA_MAX_NOF_LEDS : Nat := 200

/-- APA_MAX_GLOBAL_SETTING from apa102.h. -/
def APA_MAX_GLOBAL_SETTING : Nat := 31

/-- APA_ADD_GLOBAL_BITS from apa102.h: or the three start bits into a global
byte. -/
def APA_ADD_GLOBAL_BITS (x : Nat) : Nat := x ||| 224

/-- The static defaultGlobal of apa102.c (apa102SetDefaultGlobal is never
exercised by any claim, so it stays at its initial value). -/
def defaultGlobal : Nat := APA_ADD_GLOBAL_BITS APA_MAX_GLOBAL_SETTING

/-- apa102Pixel_t from apa102.h. -/
structure Apa102Pixel where
  global : Nat
  b : Nat
  g : Nat
  r : Nat
deriving Repr, DecidableEq

/-- One strip of the static pixels array of apa102.c: entry 0 is the start
frame, entries 1..nofPixels the leds, entry nofPixels+1 the stop frame. -/
structure ApaStrip where
  pixels : List Apa102Pixel
  nofPixels : Nat
deriving Repr, DecidableEq

/-- The whole pixel memory of apa102.c: one entry per strip, addressed by the
1-based strip argument of the public functions. -/
def ApaState : Type := List ApaStrip

instance : DecidableEq ApaState := by
  unfold ApaState
  infer_instance

/-- The pixel-memory initialization of apa102Init (apa102.c lines 54-78):
zeroed start frame, nofLeds zeroed leds carrying the default global, and an
all-ones stop frame. -/
def apa102InitStrip (nofLeds0 : Nat) : ApaStrip :=
  let nofLeds := if nofLeds0 > APA_MAX_NOF_LEDS then APA_MAX_NOF_LEDS else nofLeds0
  { pixels := ⟨0, 0, 0, 0⟩ ::
      (List.replicate nofLeds (⟨defaultGlobal, 0, 0, 0⟩ : Apa102Pixel) ++
        [⟨255, 255, 255, 255⟩])
    nofPixels := nofLeds }

/-- isValidStrip (apa102.c lines 481-492). -/
def isValidStrip (strip : Nat) : Bool :=
  if strip = APA_ALL_STRIPS then true
  else if strip = 0 ∨ strip > APA_NOF_STRIPS then false
  else true

/-- apa102IsValidPixel (apa102.c lines 465-476). The currentNofPixels read
for APA_ALL_STRIPS (an out-of-bounds array read in the source) is modelled
as 0. -/
def apa102IsValidPixel (aps : ApaState) (strip pixel : Nat) : Bool :=
  if ¬ isValidStrip strip then false
  else
    let nof := ((aps.get? (strip - 1)).map (fun s => s.nofPixels)).getD 0
    if pixel > nof ∨ pixel = 0 then false
    else true

/-- pixelNeedsUpdate (apa102.c lines 497-508). -/
def pixelNeedsUpdate (aps : ApaState) (strip pixel r g b : Nat) : Bool :=
  if apa102IsValidPixel aps strip pixel then
    match aps.get? (strip - 1) with
    | none => true
    | some s =>
      match s.pixels.get? pixel with
      | none => true
      | some p => if p.r = r ∧ p.g = g ∧ p.b = b then false else true
  else true

/-- Store one pixel record into the strip's pixel memory (no-op when the
index is outside the modelled array; the guarded callers only reach valid
indices). -/
def apaStore (aps : ApaState) (stripIdx pixel : Nat) (p : Apa102Pixel) : ApaState :=
  match aps.get? stripIdx with
  | none => aps
  | some s => aps.set stripIdx { s with pixels := s.pixels.set pixel p }

/-- apa102SetPixel (apa102.c lines 234-246): write colour plus the default
global. Without `force` the write is skipped when pixelNeedsUpdate reports
true -- that is what the source does. -/
def apa102SetPixel (aps : ApaState) (strip pixel r g b : Nat) (force : Bool) : ApaState :=
  if ¬ force ∧ pixelNeedsUpdate aps strip pixel r g b then aps
  else apaStore aps (strip - 1) pixel ⟨defaultGlobal, b, g, r⟩

/-- apa102SetPixelWithGlobal (apa102.c lines 269-281). -/
def apa102SetPixelWithGlobal (aps : ApaState) (strip pixel r g b global : Nat)
    (force : Bool) : ApaState :=
  if ¬ force ∧ pixelNeedsUpdate aps strip pixel r g b then aps
  else apaStore aps (strip - 1) pixel ⟨APA_ADD_GLOBAL_BITS global, b, g, r⟩

/-- apa102GetPixel (apa102.c lines 288-296), exactly as written: a VALID
pixel makes the function return false without copying anything (modelled as
`none`); an invalid pixel falls through to the copy, which reads
pixels[strip][pixel] without first decrementing strip (modelled by the
corresponding list lookup, `none` when that read leaves the modelled
memory). -/
def apa102GetPixel (aps : ApaState) (strip pixel : Nat) : Option Apa102Pixel :=
  if apa102IsValidPixel aps strip pixel then none
  else
    match aps.get? strip with
    | none => none
    | some s => s.pixels.get? pixel

/-- The do-while body of apa102FillRange, running `fuel + 1` writes upward
from `start`. -/
def apa102FillFrom (strip r g b global : Nat) : Nat → Nat → ApaState → ApaState
  | start, 0, aps =>
    if global > APA_MAX_GLOBAL_SETTING then apa102SetPixel aps strip start r g b true
    else apa102SetPixelWithGlobal aps strip start r g b global true
  | start, fuel + 1, aps =>
    let aps1 :=
      if global > APA_MAX_GLOBAL_SETTING then apa102SetPixel aps strip start r g b true
      else apa102SetPixelWithGlobal aps strip start r g b global true
    apa102FillFrom strip r g b global (start + 1) fuel aps1

/-- apa102FillRange (apa102.c lines 426-444): validate both ends, then fill
with a do-while loop (which writes at least once, so start > stop still
writes `start`). -/
def apa102FillRange (aps : ApaState) (strip start stop r g b global : Nat) : ApaState :=
  if ¬ apa102IsValidPixel aps strip start ∨ ¬ apa102IsValidPixel aps strip stop then aps
  else apa102FillFrom strip r g b global start (stop - start) aps

/-- animTriggerState_t from advancedAnimations.c. -/
inductive TrigState where
  | notReady
  | ready
  | activated
deriving Repr, DecidableEq

/-- animSeqPoint_t from advancedAnimations.h. The two persist flags exist in
the struct but are never read by the sequencer task. -/
structure AnimSeqPoint where
  fade : FadeSetting
  fadeUsed : Bool
  fadePersistFromLast : Bool
  pulse : PulseSetting
  pulseUsed : Bool
  pulsePersistFromLast : Bool
  waitAfter : Nat
  waitForTrigger : Bool
  switchAtMax : Bool
  fadeToNext : Bool
  switchOnTime : Bool
deriving Repr, DecidableEq

/-- animSequence_t from advancedAnimations.c (lines 42-55). The fixed-size
points array plus nofPoints is modelled as a list of the nofPoints used
points. -/
structure AnimSequence where
  points : List AnimSeqPoint
  currentPoint : Nat
  cyclesSetting : Nat
  cyclesLeft : Nat
  seg : Nat
  isSyncGroup : Bool
  isActive : Bool
  waitReleaseTime : Nat
  waitReleaseTrigger : TrigState
  isFadingToNextPoint : Bool
deriving Repr, DecidableEq

/-- The calls a sequencer step issues into the segment engine. -/
inductive EngineCmd where
  | setModeChange (fs : FadeSetting) (seg : Nat) (switchAtMax : Bool)
  | setFade (seg : Nat) (fs : FadeSetting)
  | setFadeActiveState (seg : Nat) (active : Bool)
  | setPulse (seg : Nat) (ps : PulseSetting)
  | setPulseActiveState (seg : Nat) (active : Bool)
deriving Repr, DecidableEq

/-- An all-zero fade setting (the value of a memset-cleared
ledSegmentFadeSetting_t). -/
def zeroFadeSetting : FadeSetting :=
  { mode := Mode.loop, r_min := 0, g_min := 0, b_min := 0, r_max := 0, g_max := 0,
    b_max := 0, fadeTime := 0, fadePeriodMultiplier := 0, startDir := 0, cycles := 0,
    globalSetting := 0, syncGroup := 0 }

/-- An all-zero pulse setting (the value of a memset-cleared
ledSegmentPulseSetting_t). -/
def zeroPulseSetting : PulseSetting :=
  { mode := Mode.loop, r_max := 0, g_max := 0, b_max := 0, ledsMaxPower := 0,
    ledsFadeBefore := 0, ledsFadeAfter := 0, startLed := 0, startDir := 0,
    pixelsPerIteration := 0, pixelTime := 0, cycles := 0, globalSetting := 0,
    colourSeqNum := 0, colourSeqLoops := 0, colourSeqPtr := none }

/-- An all-zero animation point (the value of a memset-cleared
animSeqPoint_t), also used as the out-of-range read default for the points
array. -/
def zeroAnimSeqPoint : AnimSeqPoint :=
  { fade := zeroFadeSetting, fadeUsed := false, fadePersistFromLast := false,
    pulse := zeroPulseSetting, pulseUsed := false, pulsePersistFromLast := false,
    waitAfter := 0, waitForTrigger := false, switchAtMax := false, fadeToNext := false,
    switchOnTime := false }

/-- animSeqInit's state initialization (advancedAnimations.c lines 239-255):
a memset-cleared slot with the given configuration loaded (note the sequence
starts inactive). -/
def animSeqInitSeq (seg : Nat) (isSyncGroup : Bool) (cycles : Nat)
    (points : List AnimSeqPoint) : AnimSequence :=
  { points := points, currentPoint := 0, cyclesSetting := cycles, cyclesLeft := cycles,
    seg := seg, isSyncGroup := isSyncGroup, isActive := false, waitReleaseTime := 0,
    waitReleaseTrigger := TrigState.notReady, isFadingToNextPoint := false }

/-- The point the sequence is currently on (`seq->points[seq->currentPoint]`;
an out-of-range index reads a cleared point). -/
def seqCurrentPoint (seq : AnimSequence) : AnimSeqPoint :=
  seq.points.getD seq.currentPoint zeroAnimSeqPoint

/-- animSeqLoadCurrentPoint (advancedAnimations.c lines 620-674): push the
current point's fade (directly, or through a mode-change crossfade when
fadeToNext or this is the very first point) and, unless a crossfade is in
flight, its pulse (or a pulse deactivation); always reset the external
trigger latch. Returns the sequence plus the engine calls issued. -/
def animSeqLoadCurrentPoint (seq : AnimSequence) (firstPoint : Bool) :
    AnimSequence × List EngineCmd :=
  let point := seqCurrentPoint seq
  let fadeActive := point.fadeUsed
  let pulseActive := point.pulseUsed
  let loadFade :=
    if fadeActive then
      if point.fadeToNext ∨ firstPoint then
        ({ seq with isFadingToNextPoint := true },
          [EngineCmd.setModeChange point.fade seq.seg point.switchAtMax])
      else (seq, [EngineCmd.setFade seq.seg point.fade])
    else (seq, [EngineCmd.setFadeActiveState seq.seg true])
  let seq1 := loadFade.1
  let loadPulse :=
    if ¬ seq1.isFadingToNextPoint ∨ firstPoint then
      if pulseActive then (seq1, [EngineCmd.setPulse seq1.seg point.pulse])
      else (seq1, [EngineCmd.setPulseActiveState seq1.seg false])
    else (seq1, [])
  ({ loadPulse.1 with waitReleaseTrigger := TrigState.notReady },
    loadFade.2 ++ loadPulse.2)

/-- The completion/time observations one sequencer step reads back from the
segment engine and the clock. -/
structure AnimObs where
  segFadeDone : Bool
  segPulseDone : Bool
  syncGroupDone : Bool
  fadeSwitchDone : Bool
  systemTime : Nat
deriving Repr, DecidableEq

/-- The completion-check/trigger/wait/advance part of one sequence's slice of
animTask (advancedAnimations.c lines 699-784): check point completion (or the
switch-on-time override), run the external trigger latch, wait out the
post-delay, then advance the point index with wraparound, decrementing the
repeat counter on wraparound (0 = infinite) and deactivating the sequence
when it runs out, loading the new point if still active. -/
def animTaskAdvance (obs : AnimObs) (seq : AnimSequence) : AnimSequence × List EngineCmd :=
  let point := seqCurrentPoint seq
  let fadeDone :=
    if seq.isSyncGroup then obs.syncGroupDone
    else obs.segFadeDone || !point.fadeUsed
  let pulseDone :=
    if seq.isSyncGroup then true
    else obs.segPulseDone || !point.pulseUsed
  if (fadeDone && pulseDone) || point.switchOnTime then
    let trig1 :=
      if point.waitForTrigger ∧ seq.waitReleaseTrigger = TrigState.notReady then
        TrigState.ready
      else seq.waitReleaseTrigger
    let trigReady :=
      if point.waitForTrigger then decide (trig1 = TrigState.activated) else true
    let seq1 := { seq with waitReleaseTrigger := trig1 }
    if trigReady then
      let wrt :=
        if seq1.waitReleaseTime = 0 then point.waitAfter + obs.systemTime
        else seq1.waitReleaseTime
      let seq1a := { seq1 with waitReleaseTime := wrt }
      if wrt ≤ obs.systemTime then
        let seq1b := { seq1a with waitReleaseTime := 0 }
        let cp1 := seq1b.currentPoint + 1
        let seq2 :=
          if cp1 ≥ seq1b.points.length then
            if seq1b.cyclesLeft = 0 then { seq1b with currentPoint := 0 }
            else
              let cl := seq1b.cyclesLeft - 1
              if cl ≠ 0 then { seq1b with currentPoint := 0, cyclesLeft := cl }
              else { seq1b with currentPoint := cp1, cyclesLeft := cl, isActive := false }
          else { seq1b with currentPoint := cp1 }
        if seq2.isActive then animSeqLoadCurrentPoint seq2 false
        else (seq2, [])
      else (seq1a, [])
    else (seq1, [])
  else (seq, [])

/-- The crossfade hand-off tail of one sequence's slice of animTask
(advancedAnimations.c lines 785-797): once the engine reports the mode-change
switch finished, push the deferred pulse (or deactivate the pulse) and clear
the crossfading flag. -/
def animTaskFadeSwitchTail (obs : AnimObs) (p : AnimSequence × List EngineCmd) :
    AnimSequence × List EngineCmd :=
  let seq3 := p.1
  if seq3.isFadingToNextPoint ∧ obs.fadeSwitchDone then
    let p2 := seqCurrentPoint seq3
    if p2.pulseUsed then
      ({ seq3 with isFadingToNextPoint := false },
        p.2 ++ [EngineCmd.setPulse seq3.seg p2.pulse])
    else
      ({ seq3 with isFadingToNextPoint := false },
        p.2 ++ [EngineCmd.setPulseActiveState seq3.seg false])
  else (seq3, p.2)

/-- One sequence's slice of animTask (advancedAnimations.c lines 693-798):
skip inactive or empty sequences, otherwise run the advance logic followed by
the crossfade hand-off tail. Returns the updated sequence and the engine
calls issued. -/
def animTaskStepSeq (obs : AnimObs) (seq : AnimSequence) : AnimSequence × List EngineCmd :=
  if ¬ (seq.isActive ∧ seq.points.length > 0) then (seq, [])
  else animTaskFadeSwitchTail obs (animTaskAdvance obs seq)

/-- A whole trajectory of sequencer steps on one sequence, one observation
per step (engine commands discarded). -/
def animTaskRun (seq : AnimSequence) : List AnimObs → AnimSequence
  | [] => seq
  | obs :: rest => animTaskRun (animTaskStepSeq obs seq).1 rest

/-- The single-sequence body of animSeqTrigTransition (advancedAnimations.c
lines 442-445): promote a READY latch to ACTIVATED, otherwise do nothing. -/
def animSeqTrigTransitionSingle (seq : AnimSequence) : AnimSequence :=
  if seq.waitReleaseTrigger = TrigState.ready then
    { seq with waitReleaseTrigger := TrigState.activated }
  else seq

/-- animSeqTrigTransition (advancedAnimations.c lines 429-446) over the
sequence table. After the LEDSEG_ALL loop the source falls through and
accesses animSeqs[255], an out-of-bounds access modelled as `none`. -/
def animSeqTrigTransition (tbl : List AnimSequence) (seqNum : Nat) :
    Option (List AnimSequence) :=
  let tbl1 := if seqNum = LEDSEG_ALL then tbl.map animSeqTrigTransitionSingle else tbl
  if ¬ (seqNum < tbl1.length ∨ seqNum = LEDSEG_ALL) then some tbl1
  else
    match tbl1.get? seqNum with
    | none => none
    | some s => some (tbl1.set seqNum (animSeqTrigTransitionSingle s))

/-- animSeqTrigReady (advancedAnimations.c lines 452-477). -/
def animSeqTrigReady (tbl : List AnimSequence) (seqNum : Nat) : Bool :=
  if seqNum = LEDSEG_ALL then
    tbl.all (fun s => decide (s.waitReleaseTrigger = TrigState.ready))
  else if ¬ seqNum < tbl.length then false
  else
    match tbl.get? seqNum with
    | none => false
    | some s => decide (s.waitReleaseTrigger = TrigState.ready)

/-- A memset-cleared segment state (what a fresh table slot holds before any
setting is applied). -/
def zeroSegState : SegState :=
  { r := 0, g := 0, b := 0, r_rate := 0, g_rate := 0, b_rate := 0, fadeDir := 0,
    cyclesToFadeChange := 0, fadeActive := false, fadeState := FadeDoneState.notDone,
    confFade := zeroFadeSetting, fadeCycle := 0, switchMode := false, savedR := 0,
    savedG := 0, savedB := 0, savedDir := 0, savedCycles := 0, pulseDir := 0,
    currentLed := 0, cyclesToPulseMove := 0, pulseCycle := 0, pulseActive := false,
    pulseDone := false, confPulse := zeroPulseSetting, pulseUpdatedCycle := false,
    glitterR := 0, glitterG := 0, glitterB := 0, glitterActiveLeds := [] }

/-- A registered segment spanning pixels 1-10 of strip 1 with a cleared
state, as ledSegInitSegment would set it up before any fade/pulse. -/
def segBase : Segment :=
  { strip := 1, start := 1, stop := 10, invertPulse := false, excludeFromAll := false,
    state := zeroSegState }

/-- An engine over a single segment, with the segSyncRelease array cleared
(its static initial state). -/
def mkEngine1 (sg : Segment) : EngineState :=
  { segments := [sg], segSyncRelease := List.replicate LEDSEG_MAX_SEGMENTS false,
    rng := [], pulseWrites := [], fadeFills := [] }

/-- An engine over two segments, with the segSyncRelease array cleared. -/
def mkEngine2 (sgA sgB : Segment) : EngineState :=
  { segments := [sgA, sgB], segSyncRelease := List.replicate LEDSEG_MAX_SEGMENTS false,
    rng := [], pulseWrites := [], fadeFills := [] }

/-- Whether segment `i` of the engine currently reports LEDSEG_FADE_DONE. -/
def segFadeDoneAt (es : EngineState) (i : Nat) : Bool :=
  match es.segments.get? i with
  | none => false
  | some sg => decide (sg.state.fadeState = FadeDoneState.done)

/-- The first engine period (counted from the current state) at which segment
`i` reports LEDSEG_FADE_DONE, searching at most `fuel` periods ahead. -/
def firstFadeDoneTick : Nat → EngineState → Nat → Option Nat
  | 0, es, i => if segFadeDoneAt es i then some 0 else none
  | fuel + 1, es, i =>
    if segFadeDoneAt es i then some 0
    else
      match enginePeriod es with
      | none => none
      | some es' => (firstFadeDoneTick fuel es' i).map (fun t => t + 1)

/-- Whether segment `i` of the engine currently reports pulseDone. -/
def segPulseDoneAt (es : EngineState) (i : Nat) : Bool :=
  match es.segments.get? i with
  | none => false
  | some sg => sg.state.pulseDone

/-- The first engine period at which segment `i` reports pulseDone, searching
at most `fuel` periods ahead. -/
def firstPulseDoneTick : Nat → EngineState → Nat → Option Nat
  | 0, es, i => if segPulseDoneAt es i then some 0 else none
  | fuel + 1, es, i =>
    if segPulseDoneAt es i then some 0
    else
      match enginePeriod es with
      | none => none
      | some es' => (firstPulseDoneTick fuel es' i).map (fun t => t + 1)

/-- How many of the logged pulse writes target the given absolute pixel. -/
def writesToPixel (ws : List PixelWrite) (p : Nat) : Nat :=
  (ws.filter (fun w => decide (w.pixel = p))).length

/-- Witness fade setting for the rate derivation: a 1000 ms full-range red
fade. -/
def fsDeriveW : FadeSetting :=
  { zeroFadeSetting with r_max := 255, fadeTime := 1000, startDir := 1, cycles := 1 }

/-- Counterexample input for C1: a fade setting with fadeTime = 0 (and a real
colour delta), on which ledSegSetFade's first loop pass divides by zero. -/
def fsZeroTime : FadeSetting :=
  { zeroFadeSetting with r_max := 255, startDir := 1, cycles := 1 }

/-- Counterexample input for C9: a small non-zero fadeTime (10 ms, below one
update period), on which the first loop pass has master_steps = 0. -/
def fsSmallTime : FadeSetting :=
  { zeroFadeSetting with r_max := 100, fadeTime := 10, startDir := 1, cycles := 1 }

/-- Counterexample input for C2: fadeTime = 2000 ms and a red delta of 150.
The derivation accepts m = 1 (steps = 100, rate = 1, remainder 50), but the
fade then needs 150 recomputes, overshooting the requested duration by 1000
ms = 50 quantization steps. -/
def fsC2 : FadeSetting :=
  { zeroFadeSetting with r_max := 150, fadeTime := 2000, startDir := 1, cycles := 1 }

/-- Counterexample inputs for C3: both segments share sync group 1, the same
1200 ms duration and a single half-cycle, but their red deltas (59 and 25)
derive different period multipliers (2 and 3). -/
def fsC3A : FadeSetting :=
  { zeroFadeSetting with
    r_max := 59, fadeTime := 1200, startDir := 1, cycles := 1, syncGroup := 1 }

/-- Second counterexample setting for C3 (delta 25, multiplier 3). -/
def fsC3B : FadeSetting :=
  { zeroFadeSetting with
    r_max := 25, fadeTime := 1200, startDir := 1, cycles := 1, syncGroup := 1 }

/-- Counterexample input for C4: a loop-end pulse, one cycle, window of two
max-power pixels, moving one pixel per period. Pixel 2 is inside the window
on two consecutive periods, so it is written twice before pulseDone. -/
def psC4 : PulseSetting :=
  { zeroPulseSetting with
    mode := Mode.loopEnd, r_max := 200, ledsMaxPower := 2, startLed := 1,
    startDir := 1, pixelsPerIteration := 1, pixelTime := 1, cycles := 1 }

/-- An example sequence for the C5/C6 witnesses: two trivial points, repeat
count 1, currently active on its first point. -/
def seqEx : AnimSequence :=
  { animSeqInitSeq 0 false 1
      [{ zeroAnimSeqPoint with switchOnTime := true, waitForTrigger := true },
       zeroAnimSeqPoint] with
    isActive := true }

/-- An example observation for the C5/C6 witnesses: everything done, clock at
1000 ms. -/
def obsEx : AnimObs :=
  { segFadeDone := true, segPulseDone := true, syncGroupDone := true,
    fadeSwitchDone := false, systemTime := 1000 }

/-- The sequencer-step advance guard, read off animTaskStepSeq: the current
point counts as done (or switches on time), the external-trigger gate passes,
and the post-completion wait deadline (armed this step if not yet armed) has
passed. -/
def seqAdvances (obs : AnimObs) (seq : AnimSequence) : Prop :=
  let point := seqCurrentPoint seq
  let fadeDone :=
    if seq.isSyncGroup then obs.syncGroupDone
    else obs.segFadeDone || !point.fadeUsed
  let pulseDone :=
    if seq.isSyncGroup then true
    else obs.segPulseDone || !point.pulseUsed
  ((fadeDone && pulseDone) || point.switchOnTime) = true ∧
  (point.waitForTrigger = true → seq.waitReleaseTrigger = TrigState.activated) ∧
  (if seq.waitReleaseTime = 0 then point.waitAfter + obs.systemTime
   else seq.waitReleaseTime) ≤ obs.systemTime

instance (obs : AnimObs) (seq : AnimSequence) : Decidable (seqAdvances obs seq) := by
  unfold seqAdvances
  infer_instance

/-- The sequencer-step wraparound guard: the step advances and the point
index runs past the end of the point list. -/
def seqWraps (obs : AnimObs) (seq : AnimSequence) : Prop :=
  seqAdvances obs seq ∧ seq.points.length ≤ seq.currentPoint + 1

instance (obs : AnimObs) (seq : AnimSequence) : Decidable (seqWraps obs seq) := by
  unfold seqWraps
  infer_instance

/-- A one-point active sequence with repeat count 1, used by the C5
witness: its single switch-on-time point wraps the point index on every
advance. -/
def seqC5 : AnimSequence :=
  { animSeqInitSeq 0 false 1 [{ zeroAnimSeqPoint with switchOnTime := true }] with
    isActive := true }

/-- Three freshly initialized 10-pixel strips (the pixel memory after
apa102Init on each strip). -/
def apaInit3 : ApaState :=
  [apa102InitStrip 10, apa102InitStrip 10, apa102InitStrip 10]

/-- The pixel memory after apa102FillRange(strip 1, pixels 2-5,
colour (10,20,30), global 5) on the fresh memory. -/
def apaFilledExample : ApaState :=
  apa102FillRange apaInit3 1 2 5 10 20 30 5

/-- The countdown reload the engine applies to a segment right after a fade
recompute (`st->cyclesToFadeChange = st->confFade.fadePeriodMultiplier`). -/
def fadeCountdownReload (sg : Segment) : Segment :=
  { sg with state := { sg.state with
      cyclesToFadeChange := sg.state.confFade.fadePeriodMultiplier } }

/-- The whole-segment fill the engine issues for an active fade. -/
def fadeFillOf (sg : Segment) : FillWrite :=
  ⟨sg.strip, sg.start, sg.stop, sg.state.r, sg.state.g, sg.state.b,
    sg.state.confFade.globalSetting⟩

/-- The pulse window length of pulseCalcAndSet (`pulseLength` local,
ledSegment.c line 1097). -/
def pulseLen (sg : Segment) : Nat :=
  sg.state.confPulse.ledsFadeAfter + sg.state.confPulse.ledsFadeBefore +
    sg.state.confPulse.ledsMaxPower

/-- The pulse half of the engine's per-segment body (ledSegRunIteration lines
976-981): apply pulseCalcAndSet when the pulse is active, else do nothing. -/
def pulseTick (sg : Segment) (rng : List Nat) : Segment × List Nat × List PixelWrite :=
  if sg.state.pulseActive then
    let ctx := pulseCalcAndSet sg rng
    ({ sg with state := ctx.st }, ctx.rng, ctx.writes)
  else (sg, rng, [])

/-- `n` successive pulse engine periods, accumulating the pixel writes. -/
def pulseRun (sg : Segment) (rng : List Nat) : Nat → Segment × List Nat × List PixelWrite
  | 0 => (sg, rng, [])
  | n + 1 =>
    let t := pulseTick sg rng
    let r := pulseRun t.1 t.2.1 n
    (r.1, r.2.1, t.2.2 ++ r.2.2)

/-- The C4 counterexample segment: segBase running psC4. -/
def sgC4 : Segment :=
  (ledSegSetPulseSingle segBase psC4).getD segBase

/-! Theorems. Helper lemmas come first, then one named theorem per claim
(with its witness or counterexample where required). -/

theorem animSeqLoadCurrentPoint_currentPoint (seq : AnimSequence) (fp : Bool) :
    (animSeqLoadCurrentPoint seq fp).1.currentPoint = seq.currentPoint := by
  unfold animSeqLoadCurrentPoint
  dsimp only
  first
  | rfl
  | (split_ifs <;> simp)

theorem animSeqLoadCurrentPoint_cyclesLeft (seq : AnimSequence) (fp : Bool) :
    (animSeqLoadCurrentPoint seq fp).1.cyclesLeft = seq.cyclesLeft := by
  unfold animSeqLoadCurrentPoint
  dsimp only
  first
  | rfl
  | (split_ifs <;> simp)

theorem animSeqLoadCurrentPoint_isActive (seq : AnimSequence) (fp : Bool) :
    (animSeqLoadCurrentPoint seq fp).1.isActive = seq.isActive := by
  unfold animSeqLoadCurrentPoint
  dsimp only
  first
  | rfl
  | (split_ifs <;> simp)

theorem animSeqLoadCurrentPoint_points (seq : AnimSequence) (fp : Bool) :
    (animSeqLoadCurrentPoint seq fp).1.points = seq.points := by
  unfold animSeqLoadCurrentPoint
  dsimp only
  first
  | rfl
  | (split_ifs <;> simp)

theorem animSeqLoadCurrentPoint_trigger (seq : AnimSequence) (fp : Bool) :
    (animSeqLoadCurrentPoint seq fp).1.waitReleaseTrigger = TrigState.notReady := by
  unfold animSeqLoadCurrentPoint
  dsimp only

theorem animTaskStepSeq_inactive (obs : AnimObs) (seq : AnimSequence)
    (h : ¬ (seq.isActive = true ∧ 0 < seq.points.length)) :
    (animTaskStepSeq obs seq).1 = seq := by
  unfold animTaskStepSeq
  simp only [gt_iff_lt]
  rw [if_pos]
  exact h

theorem animTaskFadeSwitchTail_fields (obs : AnimObs) (p : AnimSequence × List EngineCmd) :
    (animTaskFadeSwitchTail obs p).1.currentPoint = p.1.currentPoint ∧
    (animTaskFadeSwitchTail obs p).1.cyclesLeft = p.1.cyclesLeft ∧
    (animTaskFadeSwitchTail obs p).1.isActive = p.1.isActive ∧
    (animTaskFadeSwitchTail obs p).1.points = p.1.points ∧
    (animTaskFadeSwitchTail obs p).1.waitReleaseTrigger = p.1.waitReleaseTrigger := by
  unfold animTaskFadeSwitchTail
  dsimp only
  split_ifs <;> simp

theorem animTaskAdvance_no (obs : AnimObs) (seq : AnimSequence)
    (h : ¬ seqAdvances obs seq) :
    (animTaskAdvance obs seq).1.currentPoint = seq.currentPoint ∧
    (animTaskAdvance obs seq).1.cyclesLeft = seq.cyclesLeft ∧
    (animTaskAdvance obs seq).1.isActive = seq.isActive ∧
    (animTaskAdvance obs seq).1.points = seq.points := by
  unfold animTaskAdvance seqAdvances at *
  dsimp only at h ⊢
  push_neg at h
  by_cases h1 : (((if seq.isSyncGroup then obs.syncGroupDone
      else obs.segFadeDone || !(seqCurrentPoint seq).fadeUsed) &&
      (if seq.isSyncGroup then true
      else obs.segPulseDone || !(seqCurrentPoint seq).pulseUsed)) ||
      (seqCurrentPoint seq).switchOnTime) = true
  · have h' := h h1
    rw [if_pos h1]
    by_cases hw : (seqCurrentPoint seq).waitForTrigger = true
    · by_cases hl : seq.waitReleaseTrigger = TrigState.activated
      · have hwt := h' (fun _ => hl)
        rw [if_pos (by simp [hw, hl]), if_neg (Nat.not_le.2 hwt)]
        simp
      · rw [if_neg (by
          by_cases hn : seq.waitReleaseTrigger = TrigState.notReady <;>
            simp [hw, hn, hl])]
        simp
    · have hwt := h' (fun hx => absurd hx hw)
      rw [if_pos (by simp [hw]), if_neg (Nat.not_le.2 hwt)]
      simp
  · rw [if_neg h1]
    simp

theorem animTaskAdvance_yes (obs : AnimObs) (seq : AnimSequence)
    (hAct : seq.isActive = true) (h : seqAdvances obs seq) :
    ((seq.currentPoint + 1 < seq.points.length →
      (animTaskAdvance obs seq).1.currentPoint = seq.currentPoint + 1 ∧
      (animTaskAdvance obs seq).1.cyclesLeft = seq.cyclesLeft ∧
      (animTaskAdvance obs seq).1.isActive = true) ∧
     (seq.points.length ≤ seq.currentPoint + 1 →
      (seq.cyclesLeft = 0 →
        (animTaskAdvance obs seq).1.currentPoint = 0 ∧
        (animTaskAdvance obs seq).1.cyclesLeft = 0 ∧
        (animTaskAdvance obs seq).1.isActive = true) ∧
      (∀ k, seq.cyclesLeft = k + 1 →
        (animTaskAdvance obs seq).1.cyclesLeft = k ∧
        (k = 0 → (animTaskAdvance obs seq).1.isActive = false) ∧
        (k ≠ 0 → (animTaskAdvance obs seq).1.currentPoint = 0 ∧
          (animTaskAdvance obs seq).1.isActive = true)))) := by
  obtain ⟨h1, h2, h3⟩ := h
  unfold animTaskAdvance
  dsimp only
  rw [if_pos h1]
  rw [if_pos (by
    by_cases hw : (seqCurrentPoint seq).waitForTrigger = true
    · simp [hw, h2 hw]
    · simp [hw])]
  rw [if_pos h3]
  constructor
  · intro hlt
    rw [if_neg (show ¬ (seq.currentPoint + 1 ≥ seq.points.length) by omega)]
    rw [if_pos (by simp [hAct])]
    simp [animSeqLoadCurrentPoint_currentPoint, animSeqLoadCurrentPoint_cyclesLeft,
      animSeqLoadCurrentPoint_isActive, hAct]
  · intro hge
    rw [if_pos (show seq.currentPoint + 1 ≥ seq.points.length by omega)]
    constructor
    · intro hc0
      rw [if_pos hc0]
      rw [if_pos (by simp [hAct])]
      simp [animSeqLoadCurrentPoint_currentPoint, animSeqLoadCurrentPoint_cyclesLeft,
        animSeqLoadCurrentPoint_isActive, hAct, hc0]
    · intro k hk
      rw [if_neg (show ¬ seq.cyclesLeft = 0 by omega)]
      by_cases hk0 : k = 0
      · rw [if_neg (show ¬ (seq.cyclesLeft - 1 ≠ 0) by omega)]
        rw [if_neg (by simp)]
        simp [hk, hk0]
      · rw [if_pos (show seq.cyclesLeft - 1 ≠ 0 by omega)]
        rw [if_pos (by simp [hAct])]
        simp [animSeqLoadCurrentPoint_currentPoint, animSeqLoadCurrentPoint_cyclesLeft,
          animSeqLoadCurrentPoint_isActive, hAct, hk, hk0]

theorem list_set_get_self {a : Type} (l : List a) (n : Nat) (h : n < l.length) :
    l.set n l[n] = l := by
  apply List.ext_getElem
  · simp
  · intro i h1 h2
    by_cases hi : i = n
    · subst hi
      simp
    · rw [List.getElem_set_ne (show n ≠ i from fun hx => hi hx.symm)]

set_option maxHeartbeats 1000000 in
theorem animTaskAdvance_points (obs : AnimObs) (seq : AnimSequence) :
    (animTaskAdvance obs seq).1.points = seq.points := by
  unfold animTaskAdvance
  dsimp only
  split_ifs <;> simp [animSeqLoadCurrentPoint_points]

set_option maxHeartbeats 1000000 in
theorem animTaskAdvance_trigger_activated (obs : AnimObs) (seq : AnimSequence)
    (h : (animTaskAdvance obs seq).1.waitReleaseTrigger = TrigState.activated) :
    seq.waitReleaseTrigger = TrigState.activated := by
  revert h
  unfold animTaskAdvance
  dsimp only
  split_ifs <;> simp [animSeqLoadCurrentPoint_trigger]

theorem animTaskStepSeq_eq_tail (obs : AnimObs) (seq : AnimSequence)
    (hAct : seq.isActive = true) (hLen : 0 < seq.points.length) :
    animTaskStepSeq obs seq = animTaskFadeSwitchTail obs (animTaskAdvance obs seq) := by
  unfold animTaskStepSeq
  rw [if_neg (by simp [hAct, hLen])]

/-- C5: a sequencer step on an active sequence deactivates it exactly at the
last point-list wraparound: with a repeat counter of 0 the active flag and
the counter survive every step (and hence every trajectory), and with
counter k+1 a step leaves the counter untouched unless the point index wraps
around, in which case the counter drops to k and the sequence stays active
exactly when k is not yet 0. -/
theorem animSeq_cycles_deactivation (obs : AnimObs) (seq : AnimSequence)
    (hAct : seq.isActive = true) (hLen : 0 < seq.points.length) :
    (seq.cyclesLeft = 0 →
      (animTaskStepSeq obs seq).1.isActive = true ∧
      (animTaskStepSeq obs seq).1.cyclesLeft = 0) ∧
    (∀ k, seq.cyclesLeft = k + 1 →
      (¬ seqWraps obs seq →
        (animTaskStepSeq obs seq).1.isActive = true ∧
        (animTaskStepSeq obs seq).1.cyclesLeft = k + 1) ∧
      (seqWraps obs seq →
        (animTaskStepSeq obs seq).1.cyclesLeft = k ∧
        ((animTaskStepSeq obs seq).1.isActive = true ↔ k ≠ 0))) := by
  have ht := animTaskFadeSwitchTail_fields obs (animTaskAdvance obs seq)
  rw [animTaskStepSeq_eq_tail obs seq hAct hLen]
  rw [ht.2.1, ht.2.2.1]
  constructor
  · intro h0
    by_cases hadv : seqAdvances obs seq
    · by_cases hwr : seq.points.length ≤ seq.currentPoint + 1
      · have := ((animTaskAdvance_yes obs seq hAct hadv).2 hwr).1 h0
        exact ⟨this.2.2, this.2.1⟩
      · have := (animTaskAdvance_yes obs seq hAct hadv).1 (by omega)
        exact ⟨this.2.2, by rw [this.2.1, h0]⟩
    · have := animTaskAdvance_no obs seq hadv
      exact ⟨by rw [this.2.2.1, hAct], by rw [this.2.1, h0]⟩
  · intro k hk
    constructor
    · intro hnw
      by_cases hadv : seqAdvances obs seq
      · have hlt : seq.currentPoint + 1 < seq.points.length := by
          by_contra hx
          exact hnw ⟨hadv, by omega⟩
        have := (animTaskAdvance_yes obs seq hAct hadv).1 hlt
        exact ⟨this.2.2, by rw [this.2.1, hk]⟩
      · have := animTaskAdvance_no obs seq hadv
        exact ⟨by rw [this.2.2.1, hAct], by rw [this.2.1, hk]⟩
    · intro hw
      have := ((animTaskAdvance_yes obs seq hAct hw.1).2 hw.2).2 k hk
      refine ⟨this.1, ?_⟩
      constructor
      · intro ha hk0
        rw [hk0] at this
        rw [this.2.1 rfl] at ha
        exact absurd ha (by simp)
      · intro hk0
        exact (this.2.2 hk0).2

/-- C6: the external-trigger protocol of the sequencer. Firing the trigger
while the latch is not READY leaves the sequence (and the whole table)
unchanged; the latch reaches ACTIVATED through a fire exactly from the READY
state, which is exactly the state animSeqTrigReady reports; a task step on a
point with waitForTrigger whose latch is not yet ACTIVATED never advances the
point index (nor the repeat counter or active flag); and a task step never
fabricates an ACTIVATED latch by itself. -/
theorem animSeq_trigger_gates_advance :
    (∀ seq : AnimSequence, seq.waitReleaseTrigger ≠ TrigState.ready →
      animSeqTrigTransitionSingle seq = seq) ∧
    (∀ (tbl : List AnimSequence) (n : Nat), n < tbl.length → n ≠ LEDSEG_ALL →
      (∀ s, tbl.get? n = some s → s.waitReleaseTrigger ≠ TrigState.ready) →
      animSeqTrigTransition tbl n = some tbl) ∧
    (∀ seq : AnimSequence,
      ((animSeqTrigTransitionSingle seq).waitReleaseTrigger = TrigState.activated ↔
        (seq.waitReleaseTrigger = TrigState.activated ∨
          seq.waitReleaseTrigger = TrigState.ready))) ∧
    (∀ (tbl : List AnimSequence) (n : Nat) (s : AnimSequence),
      n < tbl.length → n ≠ LEDSEG_ALL → tbl.get? n = some s →
      (animSeqTrigReady tbl n = true ↔ s.waitReleaseTrigger = TrigState.ready)) ∧
    (∀ (obs : AnimObs) (seq : AnimSequence),
      (seqCurrentPoint seq).waitForTrigger = true →
      seq.waitReleaseTrigger ≠ TrigState.activated →
      (animTaskStepSeq obs seq).1.currentPoint = seq.currentPoint ∧
      (animTaskStepSeq obs seq).1.cyclesLeft = seq.cyclesLeft ∧
      (animTaskStepSeq obs seq).1.isActive = seq.isActive) ∧
    (∀ (obs : AnimObs) (seq : AnimSequence),
      (animTaskStepSeq obs seq).1.waitReleaseTrigger = TrigState.activated →
      seq.waitReleaseTrigger = TrigState.activated) := by
  refine ⟨?_, ?_, ?_, ?_, ?_, ?_⟩
  · intro seq h
    unfold animSeqTrigTransitionSingle
    rw [if_neg h]
  · intro tbl n hn hall hs
    have hget : tbl.get? n = some (tbl.get ⟨n, hn⟩) := List.get?_eq_get hn
    unfold animSeqTrigTransition
    dsimp only
    rw [if_neg hall]
    rw [if_neg (not_not_intro (Or.inl hn))]
    rw [hget]
    dsimp only
    unfold animSeqTrigTransitionSingle
    rw [if_neg (hs _ hget)]
    rw [List.get_eq_getElem, list_set_get_self tbl n hn]
  · intro seq
    unfold animSeqTrigTransitionSingle
    by_cases h : seq.waitReleaseTrigger = TrigState.ready
    · rw [if_pos h]
      simp [h]
    · rw [if_neg h]
      constructor
      · intro ha
        exact Or.inl ha
      · intro ha
        rcases ha with ha | ha
        · exact ha
        · exact absurd ha h
  · intro tbl n s hn hall hget
    unfold animSeqTrigReady
    rw [if_neg hall, if_neg (by push_neg; omega), hget]
    simp
  · intro obs seq hw hl
    by_cases hcond : seq.isActive = true ∧ 0 < seq.points.length
    · have hnadv : ¬ seqAdvances obs seq := by
        intro hadv
        exact hl (hadv.2.1 hw)
      have ht := animTaskFadeSwitchTail_fields obs (animTaskAdvance obs seq)
      have ha := animTaskAdvance_no obs seq hnadv
      rw [animTaskStepSeq_eq_tail obs seq hcond.1 hcond.2]
      exact ⟨by rw [ht.1, ha.1], by rw [ht.2.1, ha.2.1], by rw [ht.2.2.1, ha.2.2.1]⟩
    · rw [animTaskStepSeq_inactive obs seq hcond]
      exact ⟨rfl, rfl, rfl⟩
  · intro obs seq h
    by_cases hcond : seq.isActive = true ∧ 0 < seq.points.length
    · rw [animTaskStepSeq_eq_tail obs seq hcond.1 hcond.2] at h
      have ht := animTaskFadeSwitchTail_fields obs (animTaskAdvance obs seq)
      rw [ht.2.2.2.2] at h
      exact animTaskAdvance_trigger_activated obs seq h
    · rw [animTaskStepSeq_inactive obs seq hcond] at h
      exact h

/-- Witness for C5: a one-point active sequence with repeat count 1 wraps on
its first completed step and is deactivated with its counter at 0. -/
theorem animSeq_cycles_deactivation_witness :
    seqC5.isActive = true ∧ 0 < seqC5.points.length ∧ seqC5.cyclesLeft = 0 + 1 ∧
    seqWraps obsEx seqC5 ∧
    ((animTaskStepSeq obsEx seqC5).1.cyclesLeft = 0 ∧
      ((animTaskStepSeq obsEx seqC5).1.isActive = true ↔ (0 : Nat) ≠ 0)) :=
  ⟨by decide, by decide, by decide, by decide,
    ((animSeq_cycles_deactivation obsEx seqC5 (by decide) (by decide)).2 0
      (by decide)).2 (by decide)⟩

/-- Witness for C6: firing the trigger on a sequence whose latch is still
NOT_READY changes nothing. -/
theorem animSeq_trigger_gates_advance_witness :
    seqEx.waitReleaseTrigger ≠ TrigState.ready ∧
    animSeqTrigTransitionSingle seqEx = seqEx :=
  ⟨by decide, animSeq_trigger_gates_advance.1 seqEx (by decide)⟩

/-- C7: every modelled mutating operation on a segment id that is neither
registered nor LEDSEG_ALL reports failure and returns the table unchanged. -/
theorem ledSeg_invalid_id_noop (tbl : List Segment) (seg : Nat) (fs : FadeSetting)
    (ps : PulseSetting) (m : Mode) (rf rp : Bool)
    (hlen : tbl.length ≤ seg) (hall : seg ≠ LEDSEG_ALL) :
    ledSegSetFade tbl seg fs = some (false, tbl) ∧
    ledSegSetPulse tbl seg ps = some (false, tbl) ∧
    ledSegSetFadeMode tbl seg m = (false, tbl) ∧
    ledSegRestart tbl seg rf rp = (false, tbl) := by
  have hex : ledSegExists tbl seg = false := by
    simp [ledSegExists, hall]
    omega
  refine ⟨?_, ?_, ?_, ?_⟩ <;>
    simp [ledSegSetFade, ledSegSetPulse, ledSegSetFadeMode, ledSegRestart, hex]

/-- Witness for C7: on an empty table, segment id 0 is unregistered and every
mutating operation is a failing no-op. -/
theorem ledSeg_invalid_id_noop_witness :
    ([] : List Segment).length ≤ 0 ∧ (0 : Nat) ≠ LEDSEG_ALL ∧
    (ledSegSetFade [] 0 zeroFadeSetting = some (false, []) ∧
     ledSegSetPulse [] 0 zeroPulseSetting = some (false, []) ∧
     ledSegSetFadeMode [] 0 Mode.loop = (false, []) ∧
     ledSegRestart [] 0 true true = (false, [])) :=
  ⟨by decide, by decide,
    ledSeg_invalid_id_noop [] 0 zeroFadeSetting zeroPulseSetting Mode.loop true true
      (by decide) (by decide)⟩

/-- C8 (code bug): after filling pixels 2-5 of a valid 10-pixel strip, pixel
3 is a valid pixel and the strip memory really holds the filled colour
(pixels outside the range keep their initial value), yet apa102GetPixel
returns failure for it -- the function's validity guard is inverted, so the
documented round-trip never succeeds on any valid pixel. -/
theorem apa102GetPixel_fails_on_valid_pixel :
    apa102IsValidPixel apaFilledExample 1 3 = true ∧
    apa102GetPixel apaFilledExample 1 3 = none ∧
    ((apaFilledExample.get? 0).map (fun s => s.pixels.getD 3 ⟨0, 0, 0, 0⟩)) =
      some ⟨APA_ADD_GLOBAL_BITS 5, 30, 20, 10⟩ ∧
    ((apaFilledExample.get? 0).map (fun s => s.pixels.getD 1 ⟨0, 0, 0, 0⟩)) =
      some ⟨defaultGlobal, 0, 0, 0⟩ ∧
    ((apaFilledExample.get? 0).map (fun s => s.pixels.getD 6 ⟨0, 0, 0, 0⟩)) =
      some ⟨defaultGlobal, 0, 0, 0⟩ := by
  decide

/-- C10: animGetColourFromSequence returns the stored list entry unchanged
for every normalize argument (the normalizer's result is discarded), and a
NULL colour list yields black. -/
theorem animGetColourFromSequence_id (l : List RGB) (num normalize : Nat)
    (h : num < l.length) :
    animGetColourFromSequence (some l) num normalize = l.getD num ⟨0, 0, 0⟩ ∧
    animGetColourFromSequence none num normalize = ⟨0, 0, 0⟩ :=
  ⟨rfl, rfl⟩

/-- Witness for C10: a concrete one-entry list with a nonzero normalize
argument returns the entry unchanged. -/
theorem animGetColourFromSequence_id_witness :
    0 < ([(⟨1, 2, 3⟩ : RGB)]).length ∧
    (animGetColourFromSequence (some [(⟨1, 2, 3⟩ : RGB)]) 0 200 =
      ([(⟨1, 2, 3⟩ : RGB)]).getD 0 ⟨0, 0, 0⟩ ∧
     animGetColourFromSequence none 0 200 = ⟨0, 0, 0⟩) :=
  ⟨by decide, animGetColourFromSequence_id [⟨1, 2, 3⟩] 0 200 (by decide)⟩

theorem notSlowChan_iff (d ms : Nat) :
    ¬ slowChan d (d / ms) ms ↔ (d ≠ 0 → 1 ≤ d / ms ∧ d % ms ≤ largestError) := by
  unfold slowChan
  push_neg
  constructor
  · intro h hd
    exact ⟨Nat.one_le_iff_ne_zero.2 (by have := (h hd).1; omega), by have := (h hd).2; omega⟩
  · intro h hd
    exact ⟨by have := (h hd).1; omega, by have := (h hd).2; omega⟩

theorem specGood_iff_notSlow (fs : FadeSetting) (m : Nat) :
    specGoodMultiplier fs m ↔
    (¬ slowChan (absDiff fs.r_max fs.r_min)
        (absDiff fs.r_max fs.r_min / (fs.fadeTime / (LEDSEG_UPDATE_PERIOD_TIME * m)))
        (fs.fadeTime / (LEDSEG_UPDATE_PERIOD_TIME * m)) ∧
     ¬ slowChan (absDiff fs.g_max fs.g_min)
        (absDiff fs.g_max fs.g_min / (fs.fadeTime / (LEDSEG_UPDATE_PERIOD_TIME * m)))
        (fs.fadeTime / (LEDSEG_UPDATE_PERIOD_TIME * m)) ∧
     ¬ slowChan (absDiff fs.b_max fs.b_min)
        (absDiff fs.b_max fs.b_min / (fs.fadeTime / (LEDSEG_UPDATE_PERIOD_TIME * m)))
        (fs.fadeTime / (LEDSEG_UPDATE_PERIOD_TIME * m))) := by
  unfold specGoodMultiplier
  dsimp only
  rw [notSlowChan_iff, notSlowChan_iff, notSlowChan_iff]

theorem steps_pos_of_le (fs : FadeSetting) (m : Nat) (hm : 1 ≤ m)
    (h : LEDSEG_UPDATE_PERIOD_TIME * m ≤ fs.fadeTime) :
    1 ≤ fs.fadeTime / (LEDSEG_UPDATE_PERIOD_TIME * m) :=
  (Nat.le_div_iff_mul_le (by unfold LEDSEG_UPDATE_PERIOD_TIME; omega)).2 (by omega)

theorem not_good_steps_two (fs : FadeSetting) (m : Nat)
    (hs : 1 ≤ fs.fadeTime / (LEDSEG_UPDATE_PERIOD_TIME * m))
    (hng : ¬ specGoodMultiplier fs m) :
    2 ≤ fs.fadeTime / (LEDSEG_UPDATE_PERIOD_TIME * m) := by
  by_contra hx
  have h1 : fs.fadeTime / (LEDSEG_UPDATE_PERIOD_TIME * m) = 1 := by omega
  apply hng
  unfold specGoodMultiplier
  rw [h1]
  refine ⟨fun hd => ⟨?_, ?_⟩, fun hd => ⟨?_, ?_⟩, fun hd => ⟨?_, ?_⟩⟩ <;>
    simp [Nat.div_one, Nat.mod_one, largestError] <;> omega

theorem steps_two_next (fs : FadeSetting) (m : Nat) (hm : 1 ≤ m)
    (h2 : 2 ≤ fs.fadeTime / (LEDSEG_UPDATE_PERIOD_TIME * m)) :
    LEDSEG_UPDATE_PERIOD_TIME * (m + 1) ≤ fs.fadeTime := by
  have := (Nat.le_div_iff_mul_le
    (show 0 < LEDSEG_UPDATE_PERIOD_TIME * m by unfold LEDSEG_UPDATE_PERIOD_TIME; omega)).1 h2
  unfold LEDSEG_UPDATE_PERIOD_TIME at *
  omega

theorem fadeRateLoop_spec (fs : FadeSetting) : ∀ (fuel m : Nat), 1 ≤ m →
    LEDSEG_UPDATE_PERIOD_TIME * m ≤ fs.fadeTime →
    fs.fadeTime / LEDSEG_UPDATE_PERIOD_TIME + 1 - m ≤ fuel →
    ∃ mr rr gr br, fadeRateLoop fs fuel m = some (mr, rr, gr, br) ∧
      m ≤ mr ∧ specGoodMultiplier fs mr ∧
      (∀ k, m ≤ k → k < mr → ¬ specGoodMultiplier fs k) ∧
      1 ≤ fs.fadeTime / (LEDSEG_UPDATE_PERIOD_TIME * mr) ∧
      rr = absDiff fs.r_max fs.r_min / (fs.fadeTime / (LEDSEG_UPDATE_PERIOD_TIME * mr)) ∧
      gr = absDiff fs.g_max fs.g_min / (fs.fadeTime / (LEDSEG_UPDATE_PERIOD_TIME * mr)) ∧
      br = absDiff fs.b_max fs.b_min / (fs.fadeTime / (LEDSEG_UPDATE_PERIOD_TIME * mr)) := by
  intro fuel
  induction fuel with
  | zero =>
    intro m hm hle hfuel
    exfalso
    have hmF : m ≤ fs.fadeTime / LEDSEG_UPDATE_PERIOD_TIME :=
      (Nat.le_div_iff_mul_le (by unfold LEDSEG_UPDATE_PERIOD_TIME; omega)).2
        (by unfold LEDSEG_UPDATE_PERIOD_TIME at *; omega)
    omega
  | succ fuel ih =>
    intro m hm hle hfuel
    have hs := steps_pos_of_le fs m hm hle
    unfold fadeRateLoop
    dsimp only
    rw [if_neg (by omega)]
    by_cases hslow : (slowChan (absDiff fs.r_max fs.r_min)
        (absDiff fs.r_max fs.r_min / (fs.fadeTime / (LEDSEG_UPDATE_PERIOD_TIME * m)))
        (fs.fadeTime / (LEDSEG_UPDATE_PERIOD_TIME * m)) ∨
      slowChan (absDiff fs.g_max fs.g_min)
        (absDiff fs.g_max fs.g_min / (fs.fadeTime / (LEDSEG_UPDATE_PERIOD_TIME * m)))
        (fs.fadeTime / (LEDSEG_UPDATE_PERIOD_TIME * m)) ∨
      slowChan (absDiff fs.b_max fs.b_min)
        (absDiff fs.b_max fs.b_min / (fs.fadeTime / (LEDSEG_UPDATE_PERIOD_TIME * m)))
        (fs.fadeTime / (LEDSEG_UPDATE_PERIOD_TIME * m)))
    · have hng : ¬ specGoodMultiplier fs m := by
        rw [specGood_iff_notSlow]
        push_neg
        intro h1 h2
        rcases hslow with h | h | h
        · exact absurd h h1
        · exact absurd h h2
        · exact h
      have h2 := not_good_steps_two fs m hs hng
      have hnext := steps_two_next fs m hm h2
      rw [if_pos hslow]
      obtain ⟨mr, rr, gr, br, heq, hmr, hgood, hmin, hs1, hr, hg, hb⟩ :=
        ih (m + 1) (by omega) hnext (by
          have : m + 1 ≤ fs.fadeTime / LEDSEG_UPDATE_PERIOD_TIME :=
            (Nat.le_div_iff_mul_le (by unfold LEDSEG_UPDATE_PERIOD_TIME; omega)).2
              (by unfold LEDSEG_UPDATE_PERIOD_TIME at *; omega)
          omega)
      refine ⟨mr, rr, gr, br, heq, by omega, hgood, ?_, hs1, hr, hg, hb⟩
      intro k hk1 hk2
      by_cases hkm : k = m
      · rw [hkm]; exact hng
      · exact hmin k (by omega) hk2
    · rw [if_neg hslow]
      refine ⟨m, _, _, _, rfl, le_refl m, ?_, ?_, hs, rfl, rfl, rfl⟩
      · rw [specGood_iff_notSlow]
        push_neg at hslow
        exact ⟨hslow.1, hslow.2.1, hslow.2.2⟩
      · intro k hk1 hk2
        omega

theorem engineSegTick_decrement (es : EngineState) (i : Nat) (sg : Segment)
    (hget : es.segments.get? i = some sg)
    (hact : sg.state.fadeActive = true)
    (hcd : 2 ≤ sg.state.cyclesToFadeChange)
    (hpulse : sg.state.pulseActive = false) :
    engineSegTick es i = some { es with
      segments := es.segments.set i { sg with state := { sg.state with
        cyclesToFadeChange := sg.state.cyclesToFadeChange - 1 } }
      fadeFills := es.fadeFills ++ [fadeFillOf sg] } := by
  obtain ⟨hlt, -⟩ := List.get?_eq_some.1 hget
  have hc : checkCycleCounterU16 sg.state.cyclesToFadeChange =
      (false, sg.state.cyclesToFadeChange - 1) := by
    unfold checkCycleCounterU16 checkCycleCounter
    rw [if_neg (show ¬ sg.state.cyclesToFadeChange = 0 by omega),
      if_neg (show ¬ sg.state.cyclesToFadeChange = 1 by omega)]
  have hset : (es.segments.set i { sg with state := { sg.state with
        cyclesToFadeChange := sg.state.cyclesToFadeChange - 1 } }).get? i =
      some { sg with state := { sg.state with
        cyclesToFadeChange := sg.state.cyclesToFadeChange - 1 } } :=
    List.get?_set_eq_of_lt _ hlt
  unfold engineSegTick
  rw [hget]
  dsimp only
  rw [if_pos hact, hc]
  dsimp only
  rw [if_neg (show ¬ false = true by simp)]
  dsimp only
  rw [hset]
  dsimp only
  rw [hset]
  dsimp only
  rw [if_neg (show ¬ sg.state.pulseActive = true by rw [hpulse]; simp)]
  rfl

theorem engineSegTick_fire (es : EngineState) (i : Nat) (sg : Segment)
    (tbl' : List Segment) (rel' : List Bool) (sg' : Segment)
    (hget : es.segments.get? i = some sg)
    (hact : sg.state.fadeActive = true)
    (hcd : sg.state.cyclesToFadeChange = 1)
    (hcalc : fadeCalcColour es.segments es.segSyncRelease i = some (tbl', rel'))
    (hget' : tbl'.get? i = some sg')
    (hpulse : sg'.state.pulseActive = false) :
    engineSegTick es i = some { es with
      segments := tbl'.set i (fadeCountdownReload sg')
      segSyncRelease := rel'
      fadeFills := es.fadeFills ++ [fadeFillOf (fadeCountdownReload sg')] } := by
  obtain ⟨hlt', -⟩ := List.get?_eq_some.1 hget'
  have hc : checkCycleCounterU16 sg.state.cyclesToFadeChange = (true, 1) := by
    unfold checkCycleCounterU16 checkCycleCounter
    rw [if_neg (show ¬ sg.state.cyclesToFadeChange = 0 by omega),
      if_pos hcd, hcd]
  have hset : (tbl'.set i (fadeCountdownReload sg')).get? i =
      some (fadeCountdownReload sg') :=
    List.get?_set_eq_of_lt _ hlt'
  unfold engineSegTick
  rw [hget]
  dsimp only
  rw [if_pos hact, hc]
  dsimp only
  rw [if_pos (show (true : Bool) = true from rfl)]
  rw [hcalc]
  dsimp only
  rw [hget']
  dsimp only
  rw [show (tbl'.set i { sg' with state := { sg'.state with
      cyclesToFadeChange := sg'.state.confFade.fadePeriodMultiplier } }).get? i =
    (tbl'.set i (fadeCountdownReload sg')).get? i from rfl]
  rw [hset]
  dsimp only
  rw [show (tbl'.set i { sg' with state := { sg'.state with
      cyclesToFadeChange := sg'.state.confFade.fadePeriodMultiplier } }).get? i =
    (tbl'.set i (fadeCountdownReload sg')).get? i from rfl]
  rw [hset]
  dsimp only
  rw [if_neg (show ¬ (fadeCountdownReload sg').state.pulseActive = true by
    unfold fadeCountdownReload; dsimp only; rw [hpulse]; simp)]
  unfold fadeCountdownReload fadeFillOf
  rfl

/-- C9 (amended): for every fade setting whose fadeTime is at least one
update period, ledSegSetFade's rate-derivation loop terminates with a
result, and every division or modulo it performs -- one per scanned
multiplier from 1 up to the accepted one -- has master_steps of at least 1
(the embedded loop returns none whenever a pass would divide by zero, so
success already rules a zero divisor out; the final conjunct exhibits the
bound for every scanned multiplier). -/
theorem fadeRateLoop_total (fs : FadeSetting)
    (h : LEDSEG_UPDATE_PERIOD_TIME ≤ fs.fadeTime) :
    ∃ m rr gr br, fadeDeriveRes fs = some (m, rr, gr, br) ∧ 1 ≤ m ∧
      (∀ k, 1 ≤ k → k ≤ m → 1 ≤ fs.fadeTime / (LEDSEG_UPDATE_PERIOD_TIME * k)) := by
  obtain ⟨mr, rr, gr, br, heq, hm, hgood, hmin, hs1, hr, hg, hb⟩ :=
    fadeRateLoop_spec fs (fs.fadeTime / LEDSEG_UPDATE_PERIOD_TIME + 1) 1 (le_refl 1)
      (by unfold LEDSEG_UPDATE_PERIOD_TIME at *; omega) (by unfold LEDSEG_UPDATE_PERIOD_TIME; omega)
  refine ⟨mr, rr, gr, br, heq, hm, ?_⟩
  intro k hk1 hk2
  calc 1 ≤ fs.fadeTime / (LEDSEG_UPDATE_PERIOD_TIME * mr) := hs1
    _ ≤ fs.fadeTime / (LEDSEG_UPDATE_PERIOD_TIME * k) :=
      Nat.div_le_div_left (by unfold LEDSEG_UPDATE_PERIOD_TIME; omega)
        (by unfold LEDSEG_UPDATE_PERIOD_TIME; omega)

/-- Counterexample for C9 as stated: a fade setting with a small non-zero
fadeTime (10 ms) makes the very first pass of the loop compute
master_steps = 0 and then divide by it; the embedded derivation reports the
undefined behaviour as none. -/
theorem fadeRateLoop_divides_by_zero_small_time :
    fadeDeriveRes fsSmallTime = none ∧
    fsSmallTime.fadeTime / (LEDSEG_UPDATE_PERIOD_TIME * 1) = 0 :=
  ⟨rfl, rfl⟩

/-- Witness for C9: the 1000 ms full-range fade derives successfully with
every scanned divisor at least 1. -/
theorem fadeRateLoop_total_witness :
    LEDSEG_UPDATE_PERIOD_TIME ≤ fsDeriveW.fadeTime ∧
    (∃ m rr gr br, fadeDeriveRes fsDeriveW = some (m, rr, gr, br) ∧ 1 ≤ m ∧
      (∀ k, 1 ≤ k → k ≤ m →
        1 ≤ fsDeriveW.fadeTime / (LEDSEG_UPDATE_PERIOD_TIME * k))) :=
  ⟨by decide, fadeRateLoop_total fsDeriveW (by decide)⟩

/-- C1 (amended): for every fade setting whose fadeTime is at least one
update period, the derivation run by ledSegSetFade yields the smallest
period multiplier m of at least 1 satisfying the specification's acceptance
predicate (integer per-step increment of at least 1 and remainder at most
largestError on every channel with differing extremes); ledSegSetFade stores
that m both as confFade.fadePeriodMultiplier and as the cyclesToFadeChange
countdown; and the engine uses that countdown as the recompute throttle: a
countdown of 2 or more merely decrements, while a countdown of 1 triggers
fadeCalcColour and reloads the countdown from the stored multiplier. -/
theorem ledSegSetFade_multiplier_least (fs : FadeSetting) (sg : Segment)
    (h : LEDSEG_UPDATE_PERIOD_TIME ≤ fs.fadeTime) :
    ∃ m rr gr br, fadeDeriveRes fs = some (m, rr, gr, br) ∧
      1 ≤ m ∧ specGoodMultiplier fs m ∧
      (∀ k, 1 ≤ k → k < m → ¬ specGoodMultiplier fs k) ∧
      (∃ sg', ledSegSetFadeSingle sg fs = some sg' ∧
        sg'.state.confFade.fadePeriodMultiplier = m ∧
        sg'.state.cyclesToFadeChange = m) ∧
      (∀ (es : EngineState) (i : Nat) (sgi : Segment),
        es.segments.get? i = some sgi → sgi.state.fadeActive = true →
        2 ≤ sgi.state.cyclesToFadeChange → sgi.state.pulseActive = false →
        engineSegTick es i = some { es with
          segments := es.segments.set i { sgi with state := { sgi.state with
            cyclesToFadeChange := sgi.state.cyclesToFadeChange - 1 } }
          fadeFills := es.fadeFills ++ [fadeFillOf sgi] }) ∧
      (∀ (es : EngineState) (i : Nat) (sgi : Segment) (tbl' : List Segment)
          (rel' : List Bool) (sg' : Segment),
        es.segments.get? i = some sgi → sgi.state.fadeActive = true →
        sgi.state.cyclesToFadeChange = 1 →
        fadeCalcColour es.segments es.segSyncRelease i = some (tbl', rel') →
        tbl'.get? i = some sg' → sg'.state.pulseActive = false →
        engineSegTick es i = some { es with
          segments := tbl'.set i (fadeCountdownReload sg')
          segSyncRelease := rel'
          fadeFills := es.fadeFills ++ [fadeFillOf (fadeCountdownReload sg')] }) := by
  obtain ⟨mr, rr, gr, br, heq, hm, hgood, hmin, hs1, hr, hg, hb⟩ :=
    fadeRateLoop_spec fs (fs.fadeTime / LEDSEG_UPDATE_PERIOD_TIME + 1) 1 (le_refl 1)
      (by unfold LEDSEG_UPDATE_PERIOD_TIME at *; omega) (by unfold LEDSEG_UPDATE_PERIOD_TIME; omega)
  refine ⟨mr, rr, gr, br, heq, hm, hgood, hmin, ?_, ?_, ?_⟩
  · unfold ledSegSetFadeSingle fadeDeriveRes
    rw [heq]
    exact ⟨_, rfl, rfl, rfl⟩
  · intro es i sgi h1 h2 h3 h4
    exact engineSegTick_decrement es i sgi h1 h2 h3 h4
  · intro es i sgi tbl' rel' sg' h1 h2 h3 h4 h5 h6
    exact engineSegTick_fire es i sgi tbl' rel' sg' h1 h2 h3 h4 h5 h6

/-- Counterexample for C1 as stated: with fadeTime = 0 (a setting a caller
may pass), ledSegSetFade's first loop pass divides by zero, so no
fadePeriodMultiplier is stored at all (and no multiplier satisfies the
specification's predicate either, every step count being 0). -/
theorem ledSegSetFade_zero_fadeTime_ub :
    ledSegSetFadeSingle segBase fsZeroTime = none :=
  rfl

/-- Witness for C1: the 1000 ms full-range red fade stores multiplier 1 with
the least-good characterization and the engine throttle facts. -/
theorem ledSegSetFade_multiplier_least_witness :
    LEDSEG_UPDATE_PERIOD_TIME ≤ fsDeriveW.fadeTime ∧
    (∃ m rr gr br, fadeDeriveRes fsDeriveW = some (m, rr, gr, br) ∧
      1 ≤ m ∧ specGoodMultiplier fsDeriveW m ∧
      (∀ k, 1 ≤ k → k < m → ¬ specGoodMultiplier fsDeriveW k) ∧
      (∃ sg', ledSegSetFadeSingle segBase fsDeriveW = some sg' ∧
        sg'.state.confFade.fadePeriodMultiplier = m ∧
        sg'.state.cyclesToFadeChange = m) ∧
      (∀ (es : EngineState) (i : Nat) (sgi : Segment),
        es.segments.get? i = some sgi → sgi.state.fadeActive = true →
        2 ≤ sgi.state.cyclesToFadeChange → sgi.state.pulseActive = false →
        engineSegTick es i = some { es with
          segments := es.segments.set i { sgi with state := { sgi.state with
            cyclesToFadeChange := sgi.state.cyclesToFadeChange - 1 } }
          fadeFills := es.fadeFills ++ [fadeFillOf sgi] }) ∧
      (∀ (es : EngineState) (i : Nat) (sgi : Segment) (tbl' : List Segment)
          (rel' : List Bool) (sg' : Segment),
        es.segments.get? i = some sgi → sgi.state.fadeActive = true →
        sgi.state.cyclesToFadeChange = 1 →
        fadeCalcColour es.segments es.segSyncRelease i = some (tbl', rel') →
        tbl'.get? i = some sg' → sg'.state.pulseActive = false →
        engineSegTick es i = some { es with
          segments := tbl'.set i (fadeCountdownReload sg')
          segSyncRelease := rel'
          fadeFills := es.fadeFills ++ [fadeFillOf (fadeCountdownReload sg')] })) :=
  ⟨by decide, ledSegSetFade_multiplier_least fsDeriveW segBase (by decide)⟩

end LedSeg
